import Mathlib

/-!
Shallow embedding of the miaff-backend customs-duty/tax simulation engine
(`src/services/simulation.service.ts`, the multi-country variant, and the
USD-only variant in `src/services/exportacion.service.ts`) together with the
profitability aggregator (`AnalisisService` in `exportacion.service.ts`).

Monetary values and rates are modelled as rationals (`ℚ`).  The TypeScript
helper `round2 = n => Math.round((n + Number.EPSILON) * 100) / 100` is
modelled exactly as half-up rounding to hundredths: `Math.round x = ⌊x + 1/2⌋`
and the `Number.EPSILON` term only compensates for binary floating-point
representation error, which does not exist in the rational model.
JavaScript optional values are modelled with `Option`; `??` is `Option.getD`;
a thrown `Error` is `Except.error`.
-/

namespace Miaff

/-- Half-up rounding to two decimal places, the engine's `round2`/`r2` helper. -/
def round2 (q : ℚ) : ℚ := ((⌊q * 100 + 1/2⌋ : ℤ) : ℚ) / 100

/-- A rational that is a whole number of hundredths (a post-rounding
2-decimal monetary value). -/
def TwoDec (q : ℚ) : Prop := ∃ n : ℤ, q = (n : ℚ) / 100

namespace MultiSim

/-! ### Data model of `simulation.service.ts` (multi-country variant) -/

/-- `ImporterProfile` from `simulation.service.ts`. -/
inductive ImporterProfile where
  | normal
  | first_import
  | no_habido
  | publicSector   -- source name: `public` (a Lean keyword-adjacent name is avoided)
  | amazon
deriving DecidableEq

/-- `SimulationOverrides` from `simulation.service.ts`. -/
structure SimulationOverrides where
  adValoremRate : Option ℚ
  antidumpingUsd : Option ℚ
  countervailingUsd : Option ℚ
  perceptionRate : Option ℚ
  sdaUsd : Option ℚ
deriving DecidableEq

/-- `SimulationInput` from `simulation.service.ts`.  `fxRate` is a required
`number` field; JavaScript treats the value `0` (and an absent value) as
falsy in the validity check, so absence is represented by `0`. -/
structure SimulationInput where
  hs10 : String
  originCountry : String
  useFTA : Option Bool
  currency : Option String
  fxRate : ℚ
  cif : Option ℚ
  fob : Option ℚ
  freight : Option ℚ
  insurance : Option ℚ
  quantity : Option ℚ
  quantityUnit : Option String
  isUsed : Option Bool
  importerProfile : Option ImporterProfile
  alcoholDegree : Option ℚ
deriving DecidableEq

/-- One entry of the JSON `params.bands` array read by
`pickIscSpecificFromBands`; each field is `Option` because the code checks
`typeof ... === 'number'` before using it. -/
structure IscBand where
  max_abv : Option ℚ
  specific_per_l_pen : Option ℚ
deriving DecidableEq

/-- The `system` discriminator of an ISC (excise) rule. -/
inductive IscSystem where
  | none
  | ad_valorem
  | especifico
  | publico
  | mixed
deriving DecidableEq

/-- `RuleProfile.iscRule` from `simulation.service.ts`.  `params` models
`params.bands` when it is an array, `none` otherwise (the only shape the
engine reads). -/
structure IscRule where
  system : IscSystem
  adValRate : Option ℚ
  specificAmount : Option ℚ
  unit : Option String
  params : Option (List IscBand)
deriving DecidableEq

/-- Trade-remedy type (`'AD' | 'CVD'`). -/
inductive RemedyType where
  | AD
  | CVD
deriving DecidableEq

/-- Trade-remedy mode (`'ad_valorem' | 'specific'`). -/
inductive RemedyMode where
  | ad_valorem
  | specific
deriving DecidableEq

/-- One `RuleProfile.tradeRemedies` entry. -/
structure TradeRemedy where
  rtype : RemedyType
  mode : RemedyMode
  rateOrAmount : ℚ
  unit : Option String
deriving DecidableEq

/-- One `RuleProfile.permits` entry. -/
structure Permit where
  authority : String
  note : Option String
deriving DecidableEq

/-- `RuleProfile.adminFees` from `simulation.service.ts`. -/
structure AdminFees where
  uit : ℚ
  sdaRate : ℚ
  thresholdUIT : ℚ
deriving DecidableEq

/-- `RuleProfile` from `simulation.service.ts`. -/
structure RuleProfile where
  tariffId : ℤ
  hs10 : String
  description : String
  mfnRate : ℚ
  ftaRate : Option ℚ
  iscRule : Option IscRule
  vatExempt : Bool
  tradeRemedies : List TradeRemedy
  permits : List Permit
  adminFees : AdminFees
deriving DecidableEq

/-- The `details.especifico` / `details.specific` breakdown object. -/
structure IscSpecDetail where
  unit : String
  qty : ℚ
  perUnit : ℚ
  amount : ℚ
deriving DecidableEq

/-- The `details.ad_val` breakdown object. -/
structure IscAdvDetail where
  rate : ℚ
  base : ℚ
  amount : ℚ
deriving DecidableEq

/-- The dynamic `iscDetail` object: `mode` plus the per-branch fields that
the code sets (absent fields are `none`). -/
structure IscDetail where
  mode : String
  ad_val : Option IscAdvDetail
  especifico : Option IscSpecDetail
  specific : Option IscSpecDetail
deriving DecidableEq

/-- Source tag of an itemized AD/CVD entry (`'db' | 'override'`). -/
inductive RemedySource where
  | db
  | fromOverride   -- source name: `'override'`
deriving DecidableEq

/-- One itemized trade-remedy entry of the result. -/
structure RemedyItem where
  rtype : RemedyType
  mode : RemedyMode
  amount : ℚ
  source : RemedySource
deriving DecidableEq

/-- `SimulationResult.arancel`. -/
structure ArancelResult where
  rate : ℚ
  base : ℚ
  amount : ℚ
deriving DecidableEq

/-- `SimulationResult.isc`. -/
structure IscResult where
  mode : String
  details : IscDetail
  total : ℚ
deriving DecidableEq

/-- `SimulationResult.trade_remedies`. -/
structure TradeRemediesResult where
  applied : Bool
  items : List RemedyItem
  total : ℚ
deriving DecidableEq

/-- `SimulationResult.igv`. -/
structure IgvResult where
  base : ℚ
  igv16 : ℚ
  ipm2 : ℚ
  total : ℚ
  rate : ℚ
  amount : ℚ
  exempt : Bool
deriving DecidableEq

/-- `SimulationResult.percepcion`. -/
structure PercepcionResult where
  rate : ℚ
  base : ℚ
  amount : ℚ
  rule : String
deriving DecidableEq

/-- `SimulationResult.sda`. -/
structure SdaResult where
  applies : Bool
  amount : ℚ
deriving DecidableEq

/-- `SimulationResult` from `simulation.service.ts`. -/
structure SimulationResult where
  cif_pen : ℚ
  arancel : ArancelResult
  isc : IscResult
  trade_remedies : TradeRemediesResult
  igv : IgvResult
  percepcion : PercepcionResult
  sda : SdaResult
  deuda_aduanera : ℚ
  pago_en_frontera : ℚ
  notes : List String
deriving DecidableEq

/-! ### The engine, stage by stage.

Each `const x = …` of the TypeScript `simulate` body becomes a definition;
`simulate` assembles them in the source's order. -/

/-- `pickIscSpecificFromBands(params, alcoholDegree)`: the first band (in
array order) with a numeric `max_abv` such that `deg <= max_abv`, where
`deg = alcoholDegree ?? 0`; its `specific_per_l_pen` when numeric, else
`null`. -/
def pickIscSpecificFromBands (params : Option (List IscBand)) (alcoholDegree : Option ℚ) :
    Option ℚ :=
  match params with
  | Option.none => Option.none
  | Option.some bands =>
    let deg := alcoholDegree.getD 0
    match bands.find? (fun b =>
      match b.max_abv with
      | Option.some m => decide (deg ≤ m)
      | Option.none => false) with
    | Option.none => Option.none
    | Option.some band => band.specific_per_l_pen

/-- The rate/rule pair produced by `defaultPerception`. -/
structure PercDefault where
  rate : ℚ
  rule : String
deriving DecidableEq

/-- `defaultPerception(profile, isUsed)` from `simulation.service.ts`. -/
def defaultPerception (profile : Option ImporterProfile) (isUsed : Option Bool) :
    PercDefault :=
  if profile = Option.some ImporterProfile.publicSector ∨
     profile = Option.some ImporterProfile.amazon then
    { rate := 0, rule := "Excluido por régimen especial" }
  else if profile = Option.some ImporterProfile.first_import ∨
          profile = Option.some ImporterProfile.no_habido then
    { rate := 1/10, rule := "Primera importación/No habido" }
  else if isUsed.getD false then
    { rate := 1/20, rule := "Bien usado" }
  else
    { rate := 35/1000, rule := "Régimen general" }

/-- `cifUSD = input.cif ?? ((input.fob ?? 0) + (input.freight ?? 0) + (input.insurance ?? 0))`. -/
def cifUSDof (i : SimulationInput) : ℚ :=
  i.cif.getD ((i.fob.getD 0) + (i.freight.getD 0) + (i.insurance.getD 0))

/-- `cifPEN = round2(cifUSD * input.fxRate)`. -/
def cifPENof (i : SimulationInput) : ℚ := round2 (cifUSDof i * i.fxRate)

/-- The applied ad-valorem duty rate: the override when present, else
`Math.min(mfn, fta)` when `useFTA` is truthy and an FTA rate exists, else
the MFN rate. -/
def advalRateOf (i : SimulationInput) (p : RuleProfile) (o : SimulationOverrides) : ℚ :=
  match o.adValoremRate with
  | Option.some a => a
  | Option.none =>
    match p.ftaRate with
    | Option.some f => if i.useFTA.getD false then min p.mfnRate f else p.mfnRate
    | Option.none => p.mfnRate

/-- `dArancel = round2(cifPEN * advalRate)`. -/
def dArancelOf (i : SimulationInput) (p : RuleProfile) (o : SimulationOverrides) : ℚ :=
  round2 (cifPENof i * advalRateOf i p o)

/-- The ISC (excise) total, by regime. -/
def iscTotalOf (i : SimulationInput) (p : RuleProfile) (o : SimulationOverrides) : ℚ :=
  match p.iscRule with
  | Option.none => 0
  | Option.some rule =>
    match rule.system with
    | IscSystem.ad_valorem =>
      round2 ((cifPENof i + dArancelOf i p o) * rule.adValRate.getD 0)
    | IscSystem.especifico =>
      round2 (i.quantity.getD 0 * rule.specificAmount.getD 0)
    | IscSystem.mixed =>
      let perUnit := (pickIscSpecificFromBands rule.params i.alcoholDegree).getD
        (rule.specificAmount.getD 0)
      round2 (i.quantity.getD 0 * perUnit) +
        round2 ((cifPENof i + dArancelOf i p o) * rule.adValRate.getD 0)
    | _ => 0

/-- The `iscDetail` breakdown object, by regime. -/
def iscDetailOf (i : SimulationInput) (p : RuleProfile) (o : SimulationOverrides) : IscDetail :=
  match p.iscRule with
  | Option.none => { mode := "none", ad_val := Option.none, especifico := Option.none,
                     specific := Option.none }
  | Option.some rule =>
    match rule.system with
    | IscSystem.ad_valorem =>
      let rate := rule.adValRate.getD 0
      let baseISC := cifPENof i + dArancelOf i p o
      { mode := "ad_valorem",
        ad_val := Option.some { rate := rate, base := round2 baseISC,
                                amount := round2 (baseISC * rate) },
        especifico := Option.none, specific := Option.none }
    | IscSystem.especifico =>
      let qty := i.quantity.getD 0
      let perUnit := rule.specificAmount.getD 0
      { mode := "especifico", ad_val := Option.none,
        especifico := Option.some { unit := rule.unit.getD "UN", qty := qty,
                                    perUnit := perUnit, amount := round2 (qty * perUnit) },
        specific := Option.none }
    | IscSystem.mixed =>
      let qty := i.quantity.getD 0
      let perUnit := (pickIscSpecificFromBands rule.params i.alcoholDegree).getD
        (rule.specificAmount.getD 0)
      let adRate := rule.adValRate.getD 0
      { mode := "mixed",
        ad_val := Option.some { rate := adRate, base := round2 (cifPENof i + dArancelOf i p o),
                                amount := round2 ((cifPENof i + dArancelOf i p o) * adRate) },
        especifico := Option.none,
        specific := Option.some { unit := rule.unit.getD "UN", qty := qty,
                                  perUnit := perUnit, amount := round2 (qty * perUnit) } }
    | _ => { mode := "none", ad_val := Option.none, especifico := Option.none,
             specific := Option.none }

/-- The itemized AD/CVD list: database entries in schedule order, then the
antidumping override (when strictly positive — `x && x > 0`), then the
countervailing override. -/
def adcvdItemsOf (i : SimulationInput) (p : RuleProfile) (o : SimulationOverrides) :
    List RemedyItem :=
  (p.tradeRemedies.map (fun r =>
    match r.mode with
    | RemedyMode.ad_valorem =>
      { rtype := r.rtype, mode := r.mode, amount := round2 (cifPENof i * r.rateOrAmount),
        source := RemedySource.db }
    | RemedyMode.specific =>
      { rtype := r.rtype, mode := r.mode, amount := round2 (i.quantity.getD 0 * r.rateOrAmount),
        source := RemedySource.db }))
  ++ (match o.antidumpingUsd with
      | Option.some a =>
        if 0 < a then
          [{ rtype := RemedyType.AD, mode := RemedyMode.specific,
             amount := round2 (a * i.fxRate), source := RemedySource.fromOverride }]
        else []
      | Option.none => [])
  ++ (match o.countervailingUsd with
      | Option.some c =>
        if 0 < c then
          [{ rtype := RemedyType.CVD, mode := RemedyMode.specific,
             amount := round2 (c * i.fxRate), source := RemedySource.fromOverride }]
        else []
      | Option.none => [])

/-- `adcvdTotal`: the sum of the itemized amounts (the code accumulates the
same amounts it pushes). -/
def adcvdTotalOf (i : SimulationInput) (p : RuleProfile) (o : SimulationOverrides) : ℚ :=
  ((adcvdItemsOf i p o).map (fun x => x.amount)).sum

/-- `igvBase = round2(cifPEN + dArancel + iscTotal)`. -/
def igvBaseOf (i : SimulationInput) (p : RuleProfile) (o : SimulationOverrides) : ℚ :=
  round2 (cifPENof i + dArancelOf i p o + iscTotalOf i p o)

/-- `igv16 = vatExempt ? 0 : round2(igvBase * 0.16)`. -/
def igv16of (i : SimulationInput) (p : RuleProfile) (o : SimulationOverrides) : ℚ :=
  if p.vatExempt then 0 else round2 (igvBaseOf i p o * (16/100))

/-- `ipm2 = vatExempt ? 0 : round2(igvBase * 0.02)`. -/
def ipm2of (i : SimulationInput) (p : RuleProfile) (o : SimulationOverrides) : ℚ :=
  if p.vatExempt then 0 else round2 (igvBaseOf i p o * (2/100))

/-- `igvTot = round2(igv16 + ipm2)`. -/
def igvTotOf (i : SimulationInput) (p : RuleProfile) (o : SimulationOverrides) : ℚ :=
  round2 (igv16of i p o + ipm2of i p o)

/-- The applied perception rate: override when present, else the
profile-derived default. -/
def percRateOf (i : SimulationInput) (o : SimulationOverrides) : ℚ :=
  match o.perceptionRate with
  | Option.some pr => pr
  | Option.none => (defaultPerception i.importerProfile i.isUsed).rate

/-- The perception rule label. -/
def percRuleOf (i : SimulationInput) (o : SimulationOverrides) : String :=
  match o.perceptionRate with
  | Option.some pr =>
    if pr = 0 then "Percepción override: 0%" else "Percepción override"
  | Option.none => (defaultPerception i.importerProfile i.isUsed).rule

/-- `percepBase = round2(igvBase + igv16 + ipm2 + adcvdTotal)`. -/
def percepBaseOf (i : SimulationInput) (p : RuleProfile) (o : SimulationOverrides) : ℚ :=
  round2 (igvBaseOf i p o + igv16of i p o + ipm2of i p o + adcvdTotalOf i p o)

/-- `percepAmt = round2(percepBase * percRate)`. -/
def percepAmtOf (i : SimulationInput) (p : RuleProfile) (o : SimulationOverrides) : ℚ :=
  round2 (percepBaseOf i p o * percRateOf i o)

/-- `sdaApplies`: override strictly positive when supplied, else
`cifPEN > uit * thresholdUIT`. -/
def sdaAppliesOf (i : SimulationInput) (p : RuleProfile) (o : SimulationOverrides) : Bool :=
  match o.sdaUsd with
  | Option.some s => decide (0 < s)
  | Option.none => decide (p.adminFees.uit * p.adminFees.thresholdUIT < cifPENof i)

/-- `sdaAmt`: `round2(sdaUsd * fxRate)` when an override is supplied, else
the UIT rule amount when the threshold is exceeded, else `0`. -/
def sdaAmtOf (i : SimulationInput) (p : RuleProfile) (o : SimulationOverrides) : ℚ :=
  match o.sdaUsd with
  | Option.some s => round2 (s * i.fxRate)
  | Option.none =>
    if p.adminFees.uit * p.adminFees.thresholdUIT < cifPENof i then
      round2 (p.adminFees.uit * p.adminFees.sdaRate)
    else 0

/-- `deuda = round2(dArancel + iscTotal + igvTot + adcvdTotal + sdaAmt)`. -/
def deudaOf (i : SimulationInput) (p : RuleProfile) (o : SimulationOverrides) : ℚ :=
  round2 (dArancelOf i p o + iscTotalOf i p o + igvTotOf i p o + adcvdTotalOf i p o +
    sdaAmtOf i p o)

/-- `pagoFrontera = round2(deuda + percepAmt)`. -/
def pagoFronteraOf (i : SimulationInput) (p : RuleProfile) (o : SimulationOverrides) : ℚ :=
  round2 (deudaOf i p o + percepAmtOf i p o)

/-- The `notes` array in push order: the duty note, the exemption note,
then one note per permit. -/
def notesOf (i : SimulationInput) (p : RuleProfile) (o : SimulationOverrides) : List String :=
  (match o.adValoremRate with
   | Option.some _ => ["Arancel ad-valorem tomado de overrides."]
   | Option.none =>
     match p.ftaRate with
     | Option.some f =>
       if i.useFTA.getD false ∧ f < p.mfnRate then
         ["Se aplicó preferencia arancelaria (TLC)."]
       else []
     | Option.none => [])
  ++ (if p.vatExempt then ["Subpartida exonerada de IGV/IPM vigente."] else [])
  ++ p.permits.map (fun pm =>
       "Permiso: " ++ pm.authority ++
         (match pm.note with
          | Option.some n => " - " ++ n
          | Option.none => ""))

/-- `simulate(input, prof, overrides)` from `simulation.service.ts`: throws
when `!cifUSD || !input.fxRate` (JS falsiness: the value `0`), otherwise
assembles the cascade result. -/
def simulate (i : SimulationInput) (p : RuleProfile) (o : SimulationOverrides) :
    Except String SimulationResult :=
  if cifUSDof i = 0 ∨ i.fxRate = 0 then
    Except.error "CIF o (FOB/Flete/Seguro) y fxRate son obligatorios."
  else
    Except.ok
      { cif_pen := cifPENof i,
        arancel := { rate := advalRateOf i p o, base := cifPENof i,
                     amount := dArancelOf i p o },
        isc := { mode := (iscDetailOf i p o).mode, details := iscDetailOf i p o,
                 total := iscTotalOf i p o },
        trade_remedies := { applied := decide ((adcvdItemsOf i p o).length > 0),
                            items := adcvdItemsOf i p o, total := adcvdTotalOf i p o },
        igv := { base := igvBaseOf i p o, igv16 := igv16of i p o, ipm2 := ipm2of i p o,
                 total := igvTotOf i p o, rate := 18/100, amount := igvTotOf i p o,
                 exempt := p.vatExempt },
        percepcion := { rate := percRateOf i o, base := percepBaseOf i p o,
                        amount := percepAmtOf i p o, rule := percRuleOf i o },
        sda := { applies := sdaAppliesOf i p o, amount := sdaAmtOf i p o },
        deuda_aduanera := deudaOf i p o,
        pago_en_frontera := pagoFronteraOf i p o,
        notes := notesOf i p o }

end MultiSim

namespace UsdSim

/-! ### Data model of the USD-only `simulate` in `exportacion.service.ts` -/

/-- `SimulationOverrides` of the USD-only variant: the three toggles are
required booleans, the rest optional. -/
structure SimulationOverrides where
  igvEnabled : Bool
  iscEnabled : Bool
  perceptionEnabled : Bool
  iscRate : Option ℚ
  antidumpingUsd : Option ℚ
  countervailingUsd : Option ℚ
  perceptionRate : Option ℚ
  sdaUsd : Option ℚ
deriving DecidableEq

/-- `SimulationInput` of the USD-only variant. -/
structure SimulationInput where
  hs10 : String
  fxRate : Option ℚ
  cif : Option ℚ
  fob : Option ℚ
  freight : Option ℚ
  insurance : Option ℚ
  importerProfile : Option MultiSim.ImporterProfile
  isUsed : Option Bool
deriving DecidableEq

/-- `RuleProfile` of the USD-only variant. -/
structure RuleProfile where
  hs10 : String
  description : String
  adValoremRate : ℚ
  igvRate : ℚ
  ipmRate : ℚ
deriving DecidableEq

/-- `SimulationResult.isc` of the USD-only variant. -/
structure IscResult where
  applied : Bool
  total : ℚ
  details : String
deriving DecidableEq

/-- One itemized AD/CVD entry of the USD-only result. -/
structure RemedyItem where
  rtype : MultiSim.RemedyType
  amount : ℚ
deriving DecidableEq

/-- `SimulationResult.trade_remedies` of the USD-only variant. -/
structure TradeRemediesResult where
  applied : Bool
  items : List RemedyItem
  total : ℚ
deriving DecidableEq

/-- `SimulationResult.igv` of the USD-only variant. -/
structure IgvResult where
  applied : Bool
  exempt : Bool
  base : ℚ
  igv16 : ℚ
  ipm2 : ℚ
  total : ℚ
  details : String
deriving DecidableEq

/-- `SimulationResult.percepcion` of the USD-only variant. -/
structure PercepcionResult where
  applied : Bool
  rate : ℚ
  base : ℚ
  amount : ℚ
  rule : String
deriving DecidableEq

/-- `SimulationResult.sda` of the USD-only variant. -/
structure SdaResult where
  applied : Bool
  amount : ℚ
deriving DecidableEq

/-- `SimulationResult` of the USD-only variant (`cif_pen` holds USD). -/
structure SimulationResult where
  cif_pen : ℚ
  arancel : MultiSim.ArancelResult
  isc : IscResult
  trade_remedies : TradeRemediesResult
  igv : IgvResult
  percepcion : PercepcionResult
  sda : SdaResult
  deuda_aduanera : ℚ
  pago_en_frontera : ℚ
  notes : List String
deriving DecidableEq

/-! ### The USD-only engine, stage by stage. -/

/-- `cifUsd = input.cif ?? ((input.fob ?? 0) + (input.freight ?? 0) + (input.insurance ?? 0))`. -/
def cifUsdOf (i : SimulationInput) : ℚ :=
  i.cif.getD ((i.fob.getD 0) + (i.freight.getD 0) + (i.insurance.getD 0))

/-- `cifBase = r2(cifUsd)`. -/
def cifBaseOf (i : SimulationInput) : ℚ := round2 (cifUsdOf i)

/-- `avAmt = r2(cifBase * avRate)` with `avRate = prof.adValoremRate || 0`
(the `|| 0` is the identity on a rational). -/
def avAmtOf (i : SimulationInput) (p : RuleProfile) : ℚ :=
  round2 (cifBaseOf i * p.adValoremRate)

/-- The ISC total: `r2(r2(cifBase + avAmt) * rate)` when the toggle is on
(`rate = iscRate` when numeric, else 0), and `0` when disabled. -/
def iscTotalOf (i : SimulationInput) (p : RuleProfile) (o : SimulationOverrides) : ℚ :=
  if o.iscEnabled then round2 (round2 (cifBaseOf i + avAmtOf i p) * o.iscRate.getD 0)
  else 0

/-- `iscApplied = rate > 0` when enabled, `false` when disabled. -/
def iscAppliedOf (o : SimulationOverrides) : Bool :=
  if o.iscEnabled then decide (0 < o.iscRate.getD 0) else false

/-- The ISC `details` string (numeric formatting abstracted by `toString`). -/
def iscDetailsOf (o : SimulationOverrides) : String :=
  if o.iscEnabled then "ISC % sobre (CIF + A/V), tasa=" ++ toString (o.iscRate.getD 0)
  else "Deshabilitado por el usuario"

/-- `igvBase = r2(cifBase + avAmt + iscTotal)`. -/
def igvBaseOf (i : SimulationInput) (p : RuleProfile) (o : SimulationOverrides) : ℚ :=
  round2 (cifBaseOf i + avAmtOf i p + iscTotalOf i p o)

/-- `igv16 = igvApplies ? r2(igvBase * prof.igvRate) : 0`. -/
def igv16of (i : SimulationInput) (p : RuleProfile) (o : SimulationOverrides) : ℚ :=
  if o.igvEnabled then round2 (igvBaseOf i p o * p.igvRate) else 0

/-- `ipm2 = igvApplies ? r2(igvBase * prof.ipmRate) : 0`. -/
def ipm2of (i : SimulationInput) (p : RuleProfile) (o : SimulationOverrides) : ℚ :=
  if o.igvEnabled then round2 (igvBaseOf i p o * p.ipmRate) else 0

/-- `igvTot = r2(igv16 + ipm2)`. -/
def igvTotOf (i : SimulationInput) (p : RuleProfile) (o : SimulationOverrides) : ℚ :=
  round2 (igv16of i p o + ipm2of i p o)

/-- The itemized AD/CVD list: an entry per override that is truthy
(present and nonzero) — note, unlike the multi-country variant, no `> 0`
guard. -/
def remedyItemsOf (o : SimulationOverrides) : List RemedyItem :=
  (match o.antidumpingUsd with
   | Option.some a =>
     if a = 0 then [] else [{ rtype := MultiSim.RemedyType.AD, amount := round2 a }]
   | Option.none => [])
  ++ (match o.countervailingUsd with
      | Option.some c =>
        if c = 0 then [] else [{ rtype := MultiSim.RemedyType.CVD, amount := round2 c }]
      | Option.none => [])

/-- `remediesTotal`: sum of the itemized amounts. -/
def remediesTotalOf (o : SimulationOverrides) : ℚ :=
  ((remedyItemsOf o).map (fun x => x.amount)).sum

/-- The applied perception rate: `0` when the toggle is off, else the
override when numeric, else the profile default. -/
def percRateOf (i : SimulationInput) (o : SimulationOverrides) : ℚ :=
  if o.perceptionEnabled then
    match o.perceptionRate with
    | Option.some pr => pr
    | Option.none =>
      (MultiSim.defaultPerception i.importerProfile i.isUsed).rate
  else 0

/-- The perception rule label. -/
def percRuleOf (i : SimulationInput) (o : SimulationOverrides) : String :=
  if o.perceptionEnabled then
    match o.perceptionRate with
    | Option.some _ => "Override de percepción"
    | Option.none => (MultiSim.defaultPerception i.importerProfile i.isUsed).rule
  else "Deshabilitado por el usuario"

/-- `percBase`: `r2(igvBase + igv16 + ipm2 + remediesTotal)` when the
toggle is on, else `0`. -/
def percBaseOf (i : SimulationInput) (p : RuleProfile) (o : SimulationOverrides) : ℚ :=
  if o.perceptionEnabled then
    round2 (igvBaseOf i p o + igv16of i p o + ipm2of i p o + remediesTotalOf o)
  else 0

/-- `percAmt = r2(percBase * percRate)` when the toggle is on, else `0`. -/
def percAmtOf (i : SimulationInput) (p : RuleProfile) (o : SimulationOverrides) : ℚ :=
  if o.perceptionEnabled then round2 (percBaseOf i p o * percRateOf i o) else 0

/-- `percApplied = percRate > 0` when the toggle is on, else `false`. -/
def percAppliedOf (i : SimulationInput) (o : SimulationOverrides) : Bool :=
  if o.perceptionEnabled then decide (0 < percRateOf i o) else false

/-- `sdaApplied = typeof sdaUsd === 'number' && sdaUsd > 0`. -/
def sdaAppliedOf (o : SimulationOverrides) : Bool :=
  match o.sdaUsd with
  | Option.some s => decide (0 < s)
  | Option.none => false

/-- `sdaAmt = sdaApplied ? r2(sdaUsd ?? 0) : 0`. -/
def sdaAmtOf (o : SimulationOverrides) : ℚ :=
  match o.sdaUsd with
  | Option.some s => if 0 < s then round2 s else 0
  | Option.none => 0

/-- `deuda = r2(avAmt + iscTotal + igvTot + remediesTotal + sdaAmt)`. -/
def deudaOf (i : SimulationInput) (p : RuleProfile) (o : SimulationOverrides) : ℚ :=
  round2 (avAmtOf i p + iscTotalOf i p o + igvTotOf i p o + remediesTotalOf o + sdaAmtOf o)

/-- `pagoFrontera = r2(deuda + percAmt)`. -/
def pagoFronteraOf (i : SimulationInput) (p : RuleProfile) (o : SimulationOverrides) : ℚ :=
  round2 (deudaOf i p o + percAmtOf i p o)

/-- The `notes` array: only the IGV-disabled note is ever pushed. -/
def notesOf (o : SimulationOverrides) : List String :=
  if o.igvEnabled then [] else ["IGV/IPM deshabilitado por el usuario."]

/-- The USD-only `simulate(input, prof, o)` from `exportacion.service.ts`:
throws when `!cifUsd` (JS falsiness: the value `0`), otherwise assembles
the cascade result, everything in USD. -/
def simulate (i : SimulationInput) (p : RuleProfile) (o : SimulationOverrides) :
    Except String SimulationResult :=
  if cifUsdOf i = 0 then
    Except.error "Debes enviar CIF o (FOB+Flete+Seguro)."
  else
    Except.ok
      { cif_pen := cifBaseOf i,
        arancel := { rate := p.adValoremRate, base := cifBaseOf i, amount := avAmtOf i p },
        isc := { applied := iscAppliedOf o, total := iscTotalOf i p o,
                 details := iscDetailsOf o },
        trade_remedies := { applied := decide ((remedyItemsOf o).length > 0),
                            items := remedyItemsOf o, total := remediesTotalOf o },
        igv := { applied := o.igvEnabled, exempt := false, base := igvBaseOf i p o,
                 igv16 := igv16of i p o, ipm2 := ipm2of i p o, total := igvTotOf i p o,
                 details := if o.igvEnabled then "Habilitado"
                            else "Deshabilitado por el usuario" },
        percepcion := { applied := percAppliedOf i o, rate := percRateOf i o,
                        base := percBaseOf i p o, amount := percAmtOf i p o,
                        rule := percRuleOf i o },
        sda := { applied := sdaAppliedOf o, amount := sdaAmtOf o },
        deuda_aduanera := deudaOf i p o,
        pago_en_frontera := pagoFronteraOf i p o,
        notes := notesOf o }

end UsdSim

namespace Analisis

/-! ### Data model of `AnalisisService` (profitability aggregator) in
`exportacion.service.ts`.  Only the fields the computations read are
modelled.  `parseFloat(x.toString()) || 0` on a numeric column is the
identity in the rational model. -/

/-- One export / domestic-sale row (`ExportacionDetalle`): sale value and
currency (`'USD'` or the local currency). -/
structure ExportacionDetalle where
  valor_venta : ℚ
  moneda : String
deriving DecidableEq

/-- One import row (`ImportacionDetalle`): stored customs value and total
customs debt. -/
structure ImportacionDetalle where
  valor_cif : ℚ
  dta_total : ℚ
deriving DecidableEq

/-- One expense row (`GastoDetalle`): amount and currency. -/
structure GastoDetalle where
  monto : ℚ
  moneda : String
deriving DecidableEq

/-- `GastosPorClasificacion`: expense rows bucketed into the four fixed
categories. -/
structure GastosPorClasificacion where
  operativos : List GastoDetalle
  administrativos : List GastoDetalle
  ventas : List GastoDetalle
  financieros : List GastoDetalle
deriving DecidableEq

/-- `UtilidadBruta` (all four fields stored via `toFixed(2)`). -/
structure UtilidadBruta where
  ventas_totales : ℚ
  costo_adquisicion : ℚ
  utilidad_bruta : ℚ
  margen_bruto_porcentaje : ℚ
deriving DecidableEq

/-- `UtilidadOperativa`. -/
structure UtilidadOperativa where
  utilidad_bruta : ℚ
  gastos_operativos : ℚ
  utilidad_operativa : ℚ
  margen_operativo_porcentaje : ℚ
deriving DecidableEq

/-- `UtilidadNeta`. -/
structure UtilidadNeta where
  utilidad_operativa : ℚ
  gastos_administrativos : ℚ
  gastos_ventas : ℚ
  gastos_financieros : ℚ
  total_otros_gastos : ℚ
  utilidad_neta : ℚ
  margen_neto_porcentaje : ℚ
deriving DecidableEq

/-- The hard-coded USD/PEN conversion constant `3.75` used by the
aggregator. -/
def tipoCambio : ℚ := 375/100

/-- Normalize one amount to USD: divide by `3.75` unless already USD. -/
def toUSD (moneda : String) (monto : ℚ) : ℚ :=
  if moneda = "USD" then monto else monto / tipoCambio

/-- `ventasTotales`: left fold of the export rows, converting to USD. -/
def ventasTotalesOf (exps : List ExportacionDetalle) : ℚ :=
  exps.foldl (fun total e => total + toUSD e.moneda e.valor_venta) 0

/-- `costoAdquisicion`: left fold of `valor_cif + dta_total` over imports. -/
def costoAdquisicionOf (imps : List ImportacionDetalle) : ℚ :=
  imps.foldl (fun total imp => total + imp.valor_cif + imp.dta_total) 0

/-- `sumarGastos`: left fold of expense rows, converting to USD (also the
body of the inline reduce in `calcularUtilidadOperativa`). -/
def sumarGastos (gastos : List GastoDetalle) : ℚ :=
  gastos.foldl (fun total g => total + toUSD g.moneda g.monto) 0

/-- `AnalisisService.calcularUtilidadBruta`. -/
def calcularUtilidadBruta (exps : List ExportacionDetalle)
    (imps : List ImportacionDetalle) : UtilidadBruta :=
  let ventasTotales := ventasTotalesOf exps
  let costoAdquisicion := costoAdquisicionOf imps
  let utilidadBruta := ventasTotales - costoAdquisicion
  let margen := if 0 < ventasTotales then utilidadBruta / ventasTotales * 100 else 0
  { ventas_totales := round2 ventasTotales,
    costo_adquisicion := round2 costoAdquisicion,
    utilidad_bruta := round2 utilidadBruta,
    margen_bruto_porcentaje := round2 margen }

/-- `AnalisisService.calcularUtilidadOperativa`: consumes the (rounded)
`UtilidadBruta` fields. -/
def calcularUtilidadOperativa (ub : UtilidadBruta)
    (gastosOperativos : List GastoDetalle) : UtilidadOperativa :=
  let gastosTotal := sumarGastos gastosOperativos
  let utilidadOperativa := ub.utilidad_bruta - gastosTotal
  let margen := if 0 < ub.ventas_totales then utilidadOperativa / ub.ventas_totales * 100
                else 0
  { utilidad_bruta := ub.utilidad_bruta,
    gastos_operativos := round2 gastosTotal,
    utilidad_operativa := round2 utilidadOperativa,
    margen_operativo_porcentaje := round2 margen }

/-- `AnalisisService.calcularUtilidadNeta`: reconstructs "total sales" as
`utilidad_bruta + gastos_operativos` (gross profit + operating expenses)
and divides the net profit by that reconstruction. -/
def calcularUtilidadNeta (uo : UtilidadOperativa) (gastos : GastosPorClasificacion) :
    UtilidadNeta :=
  let gastosAdministrativos := sumarGastos gastos.administrativos
  let gastosVentas := sumarGastos gastos.ventas
  let gastosFinancieros := sumarGastos gastos.financieros
  let totalOtrosGastos := gastosAdministrativos + gastosVentas + gastosFinancieros
  let utilidadNeta := uo.utilidad_operativa - totalOtrosGastos
  let ventasTotales := uo.utilidad_bruta + uo.gastos_operativos
  let margen := if 0 < ventasTotales then utilidadNeta / ventasTotales * 100 else 0
  { utilidad_operativa := uo.utilidad_operativa,
    gastos_administrativos := round2 gastosAdministrativos,
    gastos_ventas := round2 gastosVentas,
    gastos_financieros := round2 gastosFinancieros,
    total_otros_gastos := round2 totalOtrosGastos,
    utilidad_neta := round2 utilidadNeta,
    margen_neto_porcentaje := round2 margen }

end Analisis

/-! ## Generic helpers for the theorems -/

/-- Extract the success value of an `Except`, with a fallback. -/
def getOk {α β : Type} (e : Except α β) (d : β) : β :=
  match e with
  | Except.ok r => r
  | Except.error _ => d

/-- Whether an `Except` is a success. -/
def isOkB {α β : Type} (e : Except α β) : Bool :=
  match e with
  | Except.ok _ => true
  | Except.error _ => false

namespace MultiSim

/-- The fallback record used only to extract witness values. -/
def zeroResult : SimulationResult :=
  { cif_pen := 0,
    arancel := { rate := 0, base := 0, amount := 0 },
    isc := { mode := "none",
             details := { mode := "none", ad_val := Option.none,
                          especifico := Option.none, specific := Option.none },
             total := 0 },
    trade_remedies := { applied := false, items := [], total := 0 },
    igv := { base := 0, igv16 := 0, ipm2 := 0, total := 0, rate := 0, amount := 0,
             exempt := false },
    percepcion := { rate := 0, base := 0, amount := 0, rule := "" },
    sda := { applies := false, amount := 0 },
    deuda_aduanera := 0, pago_en_frontera := 0, notes := [] }

/-- A concrete valid input used by witnesses. -/
def sampleInput : SimulationInput :=
  { hs10 := "2204210000", originCountry := "CL", useFTA := Option.none,
    currency := Option.none, fxRate := 35/10, cif := Option.some 1000,
    fob := Option.none, freight := Option.none, insurance := Option.none,
    quantity := Option.some 10, quantityUnit := Option.none, isUsed := Option.none,
    importerProfile := Option.none, alcoholDegree := Option.none }

/-- A concrete rule profile used by witnesses. -/
def sampleProfile : RuleProfile :=
  { tariffId := 1, hs10 := "2204210000", description := "vino", mfnRate := 6/100,
    ftaRate := Option.none, iscRule := Option.none, vatExempt := false,
    tradeRemedies := [], permits := [],
    adminFees := { uit := 5350, sdaRate := 235/10000, thresholdUIT := 3 } }

/-- Empty overrides (every field absent). -/
def emptyOverrides : SimulationOverrides :=
  { adValoremRate := Option.none, antidumpingUsd := Option.none,
    countervailingUsd := Option.none, perceptionRate := Option.none,
    sdaUsd := Option.none }

end MultiSim

namespace UsdSim

/-- The fallback record used only to extract witness values. -/
def zeroResult : SimulationResult :=
  { cif_pen := 0,
    arancel := { rate := 0, base := 0, amount := 0 },
    isc := { applied := false, total := 0, details := "" },
    trade_remedies := { applied := false, items := [], total := 0 },
    igv := { applied := false, exempt := false, base := 0, igv16 := 0, ipm2 := 0,
             total := 0, details := "" },
    percepcion := { applied := false, rate := 0, base := 0, amount := 0, rule := "" },
    sda := { applied := false, amount := 0 },
    deuda_aduanera := 0, pago_en_frontera := 0, notes := [] }

/-- The USD-only scenario input of the spec: FOB 1000, freight 150,
insurance 50. -/
def sampleInput : SimulationInput :=
  { hs10 := "4819100000", fxRate := Option.none, cif := Option.none,
    fob := Option.some 1000, freight := Option.some 150, insurance := Option.some 50,
    importerProfile := Option.none, isUsed := Option.none }

/-- The USD-only scenario profile: ad-valorem 6%, IGV 16%, IPM 2%. -/
def sampleProfile : RuleProfile :=
  { hs10 := "4819100000", description := "cajas de papel", adValoremRate := 6/100,
    igvRate := 16/100, ipmRate := 2/100 }

/-- The USD-only scenario overrides: VAT on, excise off, perception off. -/
def sampleOverrides : SimulationOverrides :=
  { igvEnabled := true, iscEnabled := false, perceptionEnabled := false,
    iscRate := Option.none, antidumpingUsd := Option.none,
    countervailingUsd := Option.none, perceptionRate := Option.none,
    sdaUsd := Option.none }

end UsdSim

/-! ## Spec-side predicates and concrete scenario data -/

/-- The failure condition asserted by the specification: the input supplies
neither a direct CIF nor all three of FOB/freight/insurance. -/
def MultiSim.claimMissingBasis (i : MultiSim.SimulationInput) : Prop :=
  i.cif = Option.none ∧
    ¬(i.fob ≠ Option.none ∧ i.freight ≠ Option.none ∧ i.insurance ≠ Option.none)

/-- A multi-country input that supplies only FOB (1000): per the claim it
must be rejected, but the engine accepts it. -/
def MultiSim.fobOnlyInput : MultiSim.SimulationInput :=
  { MultiSim.sampleInput with cif := Option.none, fob := Option.some 1000 }

namespace MultiSim

/-- Band resolution phrased as the amended claim reads it: walk the bands
in order and return the first whose (numeric) maximum strength is at least
`deg`. -/
def specFindBand : List IscBand → ℚ → Option IscBand
  | [], _ => Option.none
  | b :: rest, deg =>
    match b.max_abv with
    | Option.some m => if deg ≤ m then Option.some b else specFindBand rest deg
    | Option.none => specFindBand rest deg

/-- The per-unit specific amount of the amended claim: the matched band's
amount at strength `alcoholDegree ?? 0`, falling back to the flat
`specificAmount` only when there are no bands, no band matches, or the
matched band carries no numeric amount. -/
def specMixedPerUnit (rule : IscRule) (alcohol : Option ℚ) : ℚ :=
  match rule.params with
  | Option.none => rule.specificAmount.getD 0
  | Option.some bands =>
    ((specFindBand bands (alcohol.getD 0)).bind (fun b => b.specific_per_l_pen)).getD
      (rule.specificAmount.getD 0)

/-- The band used by the C3 scenario: maximum strength 10, amount 2.50
per unit. -/
def bandC3 : IscBand := { max_abv := Option.some 10, specific_per_l_pen := Option.some (5/2) }

/-- A mixed excise rule with one band, a flat per-unit amount of 9, and an
ad-valorem rate of 0 (to isolate the specific component). -/
def ruleC3 : IscRule :=
  { system := IscSystem.mixed, adValRate := Option.some 0,
    specificAmount := Option.some 9, unit := Option.some "L",
    params := Option.some [bandC3] }

/-- The sample profile carrying `ruleC3`. -/
def profC3 : RuleProfile := { sampleProfile with iscRule := Option.some ruleC3 }

/-- Input with quantity 100, a direct CIF of 100, fx rate 1 and no alcohol
strength supplied. -/
def inC3 : SimulationInput :=
  { sampleInput with
    cif := Option.some 100, fxRate := 1,
    quantity := Option.some 100, alcoholDegree := Option.none }

end MultiSim

namespace Analisis

/-- One export row of 1000 USD. -/
def expC4 : List ExportacionDetalle := [{ valor_venta := 1000, moneda := "USD" }]

/-- One import row: customs value 400, customs debt 0. -/
def impC4 : List ImportacionDetalle := [{ valor_cif := 400, dta_total := 0 }]

/-- One operating-expense row of 100 USD. -/
def opC4 : List GastoDetalle := [{ monto := 100, moneda := "USD" }]

/-- Expense buckets for the C4 scenario: only the operating expense. -/
def gastosC4 : GastosPorClasificacion :=
  { operativos := opC4, administrativos := [], ventas := [], financieros := [] }

/-- Expense buckets for the zero-sales scenario: one operating expense of
50 USD. -/
def gastosC4b : GastosPorClasificacion :=
  { operativos := [{ monto := 50, moneda := "USD" }], administrativos := [],
    ventas := [], financieros := [] }

end Analisis

/-- The applied duty rate as the claim words it: the override when
present; else the preferential rate when the preference flag is set, a
preferential rate exists and it is lower than the MFN rate; else the MFN
rate. -/
def MultiSim.specDutyRate (i : MultiSim.SimulationInput) (p : MultiSim.RuleProfile)
    (o : MultiSim.SimulationOverrides) : ℚ :=
  match o.adValoremRate with
  | Option.some a => a
  | Option.none =>
    match p.ftaRate with
    | Option.some f => if i.useFTA.getD false ∧ f < p.mfnRate then f else p.mfnRate
    | Option.none => p.mfnRate

/-- The sample profile extended with a preferential rate of 2% (below the
6% MFN rate). -/
def MultiSim.ftaProfile : MultiSim.RuleProfile :=
  { MultiSim.sampleProfile with ftaRate := Option.some (2/100) }

/-- The sample input with the preference flag set. -/
def MultiSim.ftaInput : MultiSim.SimulationInput :=
  { MultiSim.sampleInput with useFTA := Option.some true }

/-- Multi-country overrides carrying a special-fee override of 53 USD. -/
def MultiSim.sdaOverrides : MultiSim.SimulationOverrides :=
  { MultiSim.emptyOverrides with sdaUsd := Option.some 53 }

/-- USD-only overrides carrying a special-fee override of 53 USD. -/
def UsdSim.sdaOverrides : UsdSim.SimulationOverrides :=
  { UsdSim.sampleOverrides with sdaUsd := Option.some 53 }

/-- USD-only overrides with an antidumping override of −5. -/
def UsdSim.negAdOverrides : UsdSim.SimulationOverrides :=
  { UsdSim.sampleOverrides with antidumpingUsd := Option.some (-5) }

namespace MultiSim

/-- Inputs that agree on every field the cascade reads except the customs
value (the monotonicity setting of the claim). -/
structure AgreeExceptBase (i₁ i₂ : SimulationInput) : Prop where
  fx : i₁.fxRate = i₂.fxRate
  useFTA : i₁.useFTA = i₂.useFTA
  quantity : i₁.quantity = i₂.quantity
  alcoholDegree : i₁.alcoholDegree = i₂.alcoholDegree
  importerProfile : i₁.importerProfile = i₂.importerProfile
  isUsed : i₁.isUsed = i₂.isUsed

end MultiSim

namespace UsdSim

/-- USD-only inputs that agree on every field the cascade reads except the
customs value. -/
structure AgreeExceptBase (i₁ i₂ : SimulationInput) : Prop where
  importerProfile : i₁.importerProfile = i₂.importerProfile
  isUsed : i₁.isUsed = i₂.isUsed

end UsdSim

/-- The sample multi-country input with the larger direct CIF of 2000. -/
def MultiSim.sampleInput2 : MultiSim.SimulationInput :=
  { MultiSim.sampleInput with cif := Option.some 2000 }

/-- The sample USD-only input with a larger direct CIF of 2400. -/
def UsdSim.sampleInput2 : UsdSim.SimulationInput :=
  { UsdSim.sampleInput with cif := Option.some 2400 }

end Miaff

/-! ## Theorems -/

namespace Miaff

theorem twoDec_round2 (q : ℚ) : TwoDec (round2 q) := ⟨_, rfl⟩

theorem twoDec_zero : TwoDec 0 := ⟨0, by norm_num⟩

theorem TwoDec.add {a b : ℚ} (ha : TwoDec a) (hb : TwoDec b) : TwoDec (a + b) := by
  obtain ⟨m, rfl⟩ := ha
  obtain ⟨n, rfl⟩ := hb
  exact ⟨m + n, by push_cast; ring⟩

theorem round2_eq_of_twoDec {q : ℚ} (h : TwoDec q) : round2 q = q := by
  obtain ⟨n, rfl⟩ := h
  unfold round2
  have h1 : (n : ℚ) / 100 * 100 + 1/2 = 1/2 + (n : ℚ) := by ring
  rw [h1, Int.floor_add_int]
  have h2 : ⌊(1 : ℚ)/2⌋ = 0 := by norm_num
  rw [h2]
  norm_num

theorem round2_mono {a b : ℚ} (h : a ≤ b) : round2 a ≤ round2 b := by
  unfold round2
  have hfl : ⌊a * 100 + 1/2⌋ ≤ ⌊b * 100 + 1/2⌋ := by
    apply Int.floor_mono
    have : a * 100 ≤ b * 100 := by linarith
    linarith
  have hc : ((⌊a * 100 + 1/2⌋ : ℤ) : ℚ) ≤ ((⌊b * 100 + 1/2⌋ : ℤ) : ℚ) := by exact_mod_cast hfl
  linarith

theorem getOk_spec {α β : Type} {e : Except α β} (d : β) (h : isOkB e = true) :
    e = Except.ok (getOk e d) := by
  cases e with
  | ok a => rfl
  | error b => simp [isOkB] at h

theorem twoDec_map_sum {α : Type} (l : List α) (f : α → ℚ) (h : ∀ x, TwoDec (f x)) :
    TwoDec ((l.map f).sum) := by
  induction l with
  | nil => simpa using twoDec_zero
  | cons a t ih => rw [List.map_cons, List.sum_cons]; exact (h a).add ih

namespace MultiSim

theorem twoDec_iscTotal (i : SimulationInput) (p : RuleProfile) (o : SimulationOverrides) :
    TwoDec (iscTotalOf i p o) := by
  unfold iscTotalOf
  split
  · exact twoDec_zero
  · split
    · exact twoDec_round2 _
    · exact twoDec_round2 _
    · exact (twoDec_round2 _).add (twoDec_round2 _)
    · exact twoDec_zero

theorem twoDec_igv16 (i : SimulationInput) (p : RuleProfile) (o : SimulationOverrides) :
    TwoDec (igv16of i p o) := by
  unfold igv16of
  split
  · exact twoDec_zero
  · exact twoDec_round2 _

theorem twoDec_ipm2 (i : SimulationInput) (p : RuleProfile) (o : SimulationOverrides) :
    TwoDec (ipm2of i p o) := by
  unfold ipm2of
  split
  · exact twoDec_zero
  · exact twoDec_round2 _

theorem twoDec_adcvdTotal (i : SimulationInput) (p : RuleProfile) (o : SimulationOverrides) :
    TwoDec (adcvdTotalOf i p o) := by
  unfold adcvdTotalOf adcvdItemsOf
  rw [List.map_append, List.map_append, List.sum_append, List.sum_append]
  refine TwoDec.add (TwoDec.add ?_ ?_) ?_
  · rw [List.map_map]
    apply twoDec_map_sum
    intro r
    rcases r with ⟨t, m, amt, u⟩
    cases m <;> exact twoDec_round2 _
  · rcases o.antidumpingUsd with _ | a
    · exact twoDec_zero
    · by_cases h0 : 0 < a <;> simp [h0] <;>
        first
          | exact twoDec_zero
          | exact twoDec_round2 _
  · rcases o.countervailingUsd with _ | c
    · exact twoDec_zero
    · by_cases h0 : 0 < c <;> simp [h0] <;>
        first
          | exact twoDec_zero
          | exact twoDec_round2 _

theorem twoDec_sdaAmt (i : SimulationInput) (p : RuleProfile) (o : SimulationOverrides) :
    TwoDec (sdaAmtOf i p o) := by
  unfold sdaAmtOf
  split
  · exact twoDec_round2 _
  · split
    · exact twoDec_round2 _
    · exact twoDec_zero

/-- The customs-debt sum is itself a 2-decimal value, so its final
`round2` is the identity. -/
theorem deudaOf_eq (i : SimulationInput) (p : RuleProfile) (o : SimulationOverrides) :
    deudaOf i p o = dArancelOf i p o + iscTotalOf i p o + igvTotOf i p o +
      adcvdTotalOf i p o + sdaAmtOf i p o := by
  unfold deudaOf
  exact round2_eq_of_twoDec
    ((((twoDec_round2 _).add (twoDec_iscTotal i p o)).add (twoDec_round2 _)).add
      (twoDec_adcvdTotal i p o) |>.add (twoDec_sdaAmt i p o))

theorem pagoFronteraOf_eq (i : SimulationInput) (p : RuleProfile) (o : SimulationOverrides) :
    pagoFronteraOf i p o = deudaOf i p o + percepAmtOf i p o := by
  unfold pagoFronteraOf
  exact round2_eq_of_twoDec ((twoDec_round2 _).add (twoDec_round2 _))

end MultiSim

namespace UsdSim

theorem twoDec_iscTotal_usd (i : SimulationInput) (p : RuleProfile) (o : SimulationOverrides) :
    TwoDec (iscTotalOf i p o) := by
  unfold iscTotalOf
  split
  · exact twoDec_round2 _
  · exact twoDec_zero

theorem twoDec_remediesTotal (o : SimulationOverrides) : TwoDec (remediesTotalOf o) := by
  unfold remediesTotalOf remedyItemsOf
  rw [List.map_append, List.sum_append]
  refine TwoDec.add ?_ ?_
  · rcases o.antidumpingUsd with _ | a
    · exact twoDec_zero
    · by_cases h0 : a = 0 <;> simp [h0] <;>
        first
          | exact twoDec_zero
          | exact twoDec_round2 _
  · rcases o.countervailingUsd with _ | c
    · exact twoDec_zero
    · by_cases h0 : c = 0 <;> simp [h0] <;>
        first
          | exact twoDec_zero
          | exact twoDec_round2 _

theorem twoDec_sdaAmt_usd (o : SimulationOverrides) : TwoDec (sdaAmtOf o) := by
  unfold sdaAmtOf
  split
  · split
    · exact twoDec_round2 _
    · exact twoDec_zero
  · exact twoDec_zero

theorem deudaOf_eq_usd (i : SimulationInput) (p : RuleProfile) (o : SimulationOverrides) :
    deudaOf i p o = avAmtOf i p + iscTotalOf i p o + igvTotOf i p o +
      remediesTotalOf o + sdaAmtOf o := by
  unfold deudaOf
  exact round2_eq_of_twoDec
    ((((twoDec_round2 _).add (twoDec_iscTotal_usd i p o)).add (twoDec_round2 _)).add
      (twoDec_remediesTotal o) |>.add (twoDec_sdaAmt_usd o))

theorem twoDec_percAmt (i : SimulationInput) (p : RuleProfile) (o : SimulationOverrides) :
    TwoDec (percAmtOf i p o) := by
  unfold percAmtOf
  split
  · exact twoDec_round2 _
  · exact twoDec_zero

theorem pagoFronteraOf_eq_usd (i : SimulationInput) (p : RuleProfile) (o : SimulationOverrides) :
    pagoFronteraOf i p o = deudaOf i p o + percAmtOf i p o := by
  unfold pagoFronteraOf
  exact round2_eq_of_twoDec ((twoDec_round2 _).add (twoDec_percAmt i p o))

end UsdSim

namespace MultiSim

/-- Inversion: a successful multi-country `simulate` returns exactly the
stage-by-stage record. -/
theorem simulate_ok (i : SimulationInput) (p : RuleProfile) (o : SimulationOverrides)
    (r : SimulationResult) (h : simulate i p o = Except.ok r) :
    r = { cif_pen := cifPENof i,
          arancel := { rate := advalRateOf i p o, base := cifPENof i,
                       amount := dArancelOf i p o },
          isc := { mode := (iscDetailOf i p o).mode, details := iscDetailOf i p o,
                   total := iscTotalOf i p o },
          trade_remedies := { applied := decide ((adcvdItemsOf i p o).length > 0),
                              items := adcvdItemsOf i p o, total := adcvdTotalOf i p o },
          igv := { base := igvBaseOf i p o, igv16 := igv16of i p o, ipm2 := ipm2of i p o,
                   total := igvTotOf i p o, rate := 18/100, amount := igvTotOf i p o,
                   exempt := p.vatExempt },
          percepcion := { rate := percRateOf i o, base := percepBaseOf i p o,
                          amount := percepAmtOf i p o, rule := percRuleOf i o },
          sda := { applies := sdaAppliesOf i p o, amount := sdaAmtOf i p o },
          deuda_aduanera := deudaOf i p o,
          pago_en_frontera := pagoFronteraOf i p o,
          notes := notesOf i p o } := by
  unfold simulate at h
  split at h
  · exact absurd h (by simp)
  · exact (Except.ok.inj h).symm

end MultiSim

namespace UsdSim

/-- Inversion: a successful USD-only `simulate` returns exactly the
stage-by-stage record. -/
theorem simulate_ok_usd (i : SimulationInput) (p : RuleProfile) (o : SimulationOverrides)
    (r : SimulationResult) (h : simulate i p o = Except.ok r) :
    r = { cif_pen := cifBaseOf i,
          arancel := { rate := p.adValoremRate, base := cifBaseOf i, amount := avAmtOf i p },
          isc := { applied := iscAppliedOf o, total := iscTotalOf i p o,
                   details := iscDetailsOf o },
          trade_remedies := { applied := decide ((remedyItemsOf o).length > 0),
                              items := remedyItemsOf o, total := remediesTotalOf o },
          igv := { applied := o.igvEnabled, exempt := false, base := igvBaseOf i p o,
                   igv16 := igv16of i p o, ipm2 := ipm2of i p o, total := igvTotOf i p o,
                   details := if o.igvEnabled then "Habilitado"
                              else "Deshabilitado por el usuario" },
          percepcion := { applied := percAppliedOf i o, rate := percRateOf i o,
                          base := percBaseOf i p o, amount := percAmtOf i p o,
                          rule := percRuleOf i o },
          sda := { applied := sdaAppliedOf o, amount := sdaAmtOf o },
          deuda_aduanera := deudaOf i p o,
          pago_en_frontera := pagoFronteraOf i p o,
          notes := notesOf o } := by
  unfold simulate at h
  split at h
  · exact absurd h (by simp)
  · exact (Except.ok.inj h).symm

end UsdSim

/-- C1: in both the multi-country and the USD-only variant, every
successful simulation satisfies
`customs_debt = duty + excise total + VAT-family total + trade-remedy
total + special fee` and
`amount payable at border = customs_debt + perception amount`, exactly,
on the post-rounding 2-decimal values. -/
theorem C1_customs_debt_decomposition :
    (∀ (i : MultiSim.SimulationInput) (p : MultiSim.RuleProfile)
       (o : MultiSim.SimulationOverrides) (r : MultiSim.SimulationResult),
       MultiSim.simulate i p o = Except.ok r →
       r.deuda_aduanera = r.arancel.amount + r.isc.total + r.igv.total +
         r.trade_remedies.total + r.sda.amount ∧
       r.pago_en_frontera = r.deuda_aduanera + r.percepcion.amount) ∧
    (∀ (i : UsdSim.SimulationInput) (p : UsdSim.RuleProfile)
       (o : UsdSim.SimulationOverrides) (r : UsdSim.SimulationResult),
       UsdSim.simulate i p o = Except.ok r →
       r.deuda_aduanera = r.arancel.amount + r.isc.total + r.igv.total +
         r.trade_remedies.total + r.sda.amount ∧
       r.pago_en_frontera = r.deuda_aduanera + r.percepcion.amount) := by
  constructor
  · intro i p o r h
    have hr := MultiSim.simulate_ok i p o r h
    subst hr
    exact ⟨MultiSim.deudaOf_eq i p o, MultiSim.pagoFronteraOf_eq i p o⟩
  · intro i p o r h
    have hr := UsdSim.simulate_ok_usd i p o r h
    subst hr
    exact ⟨UsdSim.deudaOf_eq_usd i p o, UsdSim.pagoFronteraOf_eq_usd i p o⟩

/-- C1 witness: the invariants evaluated on a concrete valid input of
each variant. -/
theorem C1_customs_debt_decomposition_witness :
    (MultiSim.simulate MultiSim.sampleInput MultiSim.sampleProfile MultiSim.emptyOverrides =
       Except.ok (getOk (MultiSim.simulate MultiSim.sampleInput MultiSim.sampleProfile
         MultiSim.emptyOverrides) MultiSim.zeroResult) ∧
     (getOk (MultiSim.simulate MultiSim.sampleInput MultiSim.sampleProfile
        MultiSim.emptyOverrides) MultiSim.zeroResult).deuda_aduanera =
       (getOk (MultiSim.simulate MultiSim.sampleInput MultiSim.sampleProfile
          MultiSim.emptyOverrides) MultiSim.zeroResult).arancel.amount +
       (getOk (MultiSim.simulate MultiSim.sampleInput MultiSim.sampleProfile
          MultiSim.emptyOverrides) MultiSim.zeroResult).isc.total +
       (getOk (MultiSim.simulate MultiSim.sampleInput MultiSim.sampleProfile
          MultiSim.emptyOverrides) MultiSim.zeroResult).igv.total +
       (getOk (MultiSim.simulate MultiSim.sampleInput MultiSim.sampleProfile
          MultiSim.emptyOverrides) MultiSim.zeroResult).trade_remedies.total +
       (getOk (MultiSim.simulate MultiSim.sampleInput MultiSim.sampleProfile
          MultiSim.emptyOverrides) MultiSim.zeroResult).sda.amount) ∧
    (UsdSim.simulate UsdSim.sampleInput UsdSim.sampleProfile UsdSim.sampleOverrides =
       Except.ok (getOk (UsdSim.simulate UsdSim.sampleInput UsdSim.sampleProfile
         UsdSim.sampleOverrides) UsdSim.zeroResult) ∧
     (getOk (UsdSim.simulate UsdSim.sampleInput UsdSim.sampleProfile UsdSim.sampleOverrides)
        UsdSim.zeroResult).pago_en_frontera =
       (getOk (UsdSim.simulate UsdSim.sampleInput UsdSim.sampleProfile UsdSim.sampleOverrides)
          UsdSim.zeroResult).deuda_aduanera +
       (getOk (UsdSim.simulate UsdSim.sampleInput UsdSim.sampleProfile UsdSim.sampleOverrides)
          UsdSim.zeroResult).percepcion.amount) := by
  have hm : MultiSim.simulate MultiSim.sampleInput MultiSim.sampleProfile
      MultiSim.emptyOverrides =
      Except.ok (getOk (MultiSim.simulate MultiSim.sampleInput MultiSim.sampleProfile
        MultiSim.emptyOverrides) MultiSim.zeroResult) := by
    apply getOk_spec
    norm_num [MultiSim.simulate, isOkB, MultiSim.cifUSDof, MultiSim.sampleInput]
  have hu : UsdSim.simulate UsdSim.sampleInput UsdSim.sampleProfile UsdSim.sampleOverrides =
      Except.ok (getOk (UsdSim.simulate UsdSim.sampleInput UsdSim.sampleProfile
        UsdSim.sampleOverrides) UsdSim.zeroResult) := by
    apply getOk_spec
    norm_num [UsdSim.simulate, isOkB, UsdSim.cifUsdOf, UsdSim.sampleInput]
  exact ⟨⟨hm, (C1_customs_debt_decomposition.1 _ _ _ _ hm).1⟩,
         ⟨hu, (C1_customs_debt_decomposition.2 _ _ _ _ hu).2⟩⟩

/-- C2 counterexample: an input supplying neither a direct CIF nor all
three of FOB/freight/insurance (only FOB), with a foreign-exchange rate
present, on which the multi-country `simulate` nevertheless succeeds —
contradicting "fails with InvalidInput exactly when …". -/
theorem C2_missing_basis_counterexample :
    MultiSim.claimMissingBasis MultiSim.fobOnlyInput ∧
    MultiSim.fobOnlyInput.fxRate ≠ 0 ∧
    isOkB (MultiSim.simulate MultiSim.fobOnlyInput MultiSim.sampleProfile
      MultiSim.emptyOverrides) = true := by
  refine ⟨⟨rfl, ?_⟩, ?_, ?_⟩
  · intro h
    exact absurd rfl h.2.1
  · norm_num [MultiSim.fobOnlyInput, MultiSim.sampleInput]
  · norm_num [MultiSim.simulate, isOkB, MultiSim.cifUSDof, MultiSim.fobOnlyInput,
      MultiSim.sampleInput]

/-- C2 (amended): `simulate` fails exactly when the effective customs
value — the direct CIF when present, otherwise the sum of the supplied
FOB/freight/insurance components with absent ones treated as 0 — equals 0,
or, in the multi-country variant only, when the foreign-exchange rate is 0
(absent); the check precedes all tax arithmetic. -/
theorem C2_missing_basis_amended :
    (∀ (i : MultiSim.SimulationInput) (p : MultiSim.RuleProfile)
       (o : MultiSim.SimulationOverrides),
       isOkB (MultiSim.simulate i p o) = false ↔
         (MultiSim.cifUSDof i = 0 ∨ i.fxRate = 0)) ∧
    (∀ (i : UsdSim.SimulationInput) (p : UsdSim.RuleProfile)
       (o : UsdSim.SimulationOverrides),
       isOkB (UsdSim.simulate i p o) = false ↔ UsdSim.cifUsdOf i = 0) := by
  constructor
  · intro i p o
    unfold MultiSim.simulate
    by_cases h : MultiSim.cifUSDof i = 0 ∨ i.fxRate = 0
    · simp [h, isOkB]
    · simp [h, isOkB]
  · intro i p o
    unfold UsdSim.simulate
    by_cases h : UsdSim.cifUsdOf i = 0
    · simp [h, isOkB]
    · simp [h, isOkB]

theorem round2_zero : round2 0 = 0 := round2_eq_of_twoDec twoDec_zero

namespace MultiSim

theorem specFindBand_eq_find (bands : List IscBand) (deg : ℚ) :
    specFindBand bands deg = bands.find? (fun b =>
      match b.max_abv with
      | Option.some m => decide (deg ≤ m)
      | Option.none => false) := by
  induction bands with
  | nil => rfl
  | cons b rest ih =>
    cases hm : b.max_abv with
    | none => simp [specFindBand, List.find?_cons, hm, ih]
    | some m =>
      by_cases hle : deg ≤ m
      · simp [specFindBand, List.find?_cons, hm, hle]
      · simp [specFindBand, List.find?_cons, hm, hle, ih]

/-- The engine's band pick (with flat fallback) agrees with the amended
claim's resolution rule. -/
theorem pick_getD_eq_spec (rule : IscRule) (alcohol : Option ℚ) :
    (pickIscSpecificFromBands rule.params alcohol).getD (rule.specificAmount.getD 0) =
      specMixedPerUnit rule alcohol := by
  rcases hp : rule.params with _ | bands
  · simp [pickIscSpecificFromBands, specMixedPerUnit, hp]
  · simp only [pickIscSpecificFromBands, specMixedPerUnit, hp, specFindBand_eq_find]
    cases hf : bands.find? (fun b =>
      match b.max_abv with
      | Option.some m => decide (alcohol.getD 0 ≤ m)
      | Option.none => false) with
    | none => simp [hf]
    | some band => simp [hf]

end MultiSim

/-- C3 counterexample: with no alcohol strength supplied, a band of
maximum strength 10 at 2.50 per unit and a flat per-unit amount of 9
(quantity 100, ad-valorem excise component 0), the claim's fallback rule
predicts a specific component of 900.00, but the engine matches the band
at the defaulted strength 0 and returns an excise total of 250.00. -/
theorem C3_mixed_excise_counterexample :
    MultiSim.inC3.alcoholDegree = Option.none ∧
    MultiSim.ruleC3.specificAmount = Option.some 9 ∧
    (MultiSim.simulate MultiSim.inC3 MultiSim.profC3 MultiSim.emptyOverrides).map
      (fun r => r.isc.total) = Except.ok 250 ∧
    round2 (MultiSim.inC3.quantity.getD 0 * 9) = 900 ∧
    (250 : ℚ) ≠ 900 := by
  refine ⟨rfl, rfl, ?_, ?_, by norm_num⟩
  · have hcond : ¬(MultiSim.cifUSDof MultiSim.inC3 = 0 ∨ MultiSim.inC3.fxRate = 0) := by
      norm_num [MultiSim.cifUSDof, MultiSim.inC3, MultiSim.sampleInput]
    unfold MultiSim.simulate
    rw [if_neg hcond]
    simp only [Except.map]
    have htot : MultiSim.iscTotalOf MultiSim.inC3 MultiSim.profC3 MultiSim.emptyOverrides =
        250 := by
      have hpick : MultiSim.pickIscSpecificFromBands (Option.some [MultiSim.bandC3])
          Option.none = Option.some (5/2) := by
        norm_num [MultiSim.pickIscSpecificFromBands, MultiSim.bandC3, List.find?_cons]
      have h250 : round2 ((100 : ℚ) * (5/2)) = 250 := by
        have he : ((100 : ℚ) * (5/2)) = 250 := by norm_num
        rw [he]
        exact round2_eq_of_twoDec ⟨25000, by norm_num⟩
      simp only [MultiSim.iscTotalOf, MultiSim.profC3, MultiSim.sampleProfile]
      simp only [MultiSim.ruleC3]
      simp [MultiSim.inC3, MultiSim.sampleInput, round2_zero]
      rw [hpick, Option.getD_some]
      exact h250
    rw [htot]
  · have : (MultiSim.inC3.quantity.getD 0 * 9 : ℚ) = 900 := by
      norm_num [MultiSim.inC3, MultiSim.sampleInput]
    rw [this]
    exact round2_eq_of_twoDec ⟨90000, by norm_num⟩

/-- C3 (amended): in the multi-country `simulate` with a `mixed` excise
regime, the per-unit specific amount is resolved by matching the alcohol
strength — defaulting to 0 when absent — against the ordered bands (first
band whose numeric maximum strength is ≥ the strength); the flat per-unit
amount is the fallback only when no band matches (or the matched band has
no numeric amount); the excise total is `round2(quantity × per-unit)` plus
`round2((customs value base + duty) × ad-valorem rate)`. -/
theorem C3_mixed_excise_amended :
    ∀ (i : MultiSim.SimulationInput) (p : MultiSim.RuleProfile)
      (o : MultiSim.SimulationOverrides) (r : MultiSim.SimulationResult)
      (rule : MultiSim.IscRule),
      MultiSim.simulate i p o = Except.ok r →
      p.iscRule = Option.some rule →
      rule.system = MultiSim.IscSystem.mixed →
      r.isc.total =
        round2 (i.quantity.getD 0 * MultiSim.specMixedPerUnit rule i.alcoholDegree) +
          round2 ((r.cif_pen + r.arancel.amount) * rule.adValRate.getD 0) := by
  intro i p o r rule h hp hs
  have hr := MultiSim.simulate_ok i p o r h
  subst hr
  show MultiSim.iscTotalOf i p o = _
  unfold MultiSim.iscTotalOf
  simp only [hp, hs, MultiSim.pick_getD_eq_spec]

/-- C3 amended witness: the amended statement evaluated on the concrete
mixed-regime scenario. -/
theorem C3_mixed_excise_amended_witness :
    MultiSim.simulate MultiSim.inC3 MultiSim.profC3 MultiSim.emptyOverrides =
      Except.ok (getOk (MultiSim.simulate MultiSim.inC3 MultiSim.profC3
        MultiSim.emptyOverrides) MultiSim.zeroResult) ∧
    MultiSim.profC3.iscRule = Option.some MultiSim.ruleC3 ∧
    MultiSim.ruleC3.system = MultiSim.IscSystem.mixed ∧
    (getOk (MultiSim.simulate MultiSim.inC3 MultiSim.profC3 MultiSim.emptyOverrides)
       MultiSim.zeroResult).isc.total =
      round2 (MultiSim.inC3.quantity.getD 0 *
          MultiSim.specMixedPerUnit MultiSim.ruleC3 MultiSim.inC3.alcoholDegree) +
        round2 (((getOk (MultiSim.simulate MultiSim.inC3 MultiSim.profC3
            MultiSim.emptyOverrides) MultiSim.zeroResult).cif_pen +
          (getOk (MultiSim.simulate MultiSim.inC3 MultiSim.profC3 MultiSim.emptyOverrides)
            MultiSim.zeroResult).arancel.amount) * MultiSim.ruleC3.adValRate.getD 0) := by
  have hok : MultiSim.simulate MultiSim.inC3 MultiSim.profC3 MultiSim.emptyOverrides =
      Except.ok (getOk (MultiSim.simulate MultiSim.inC3 MultiSim.profC3
        MultiSim.emptyOverrides) MultiSim.zeroResult) := by
    apply getOk_spec
    norm_num [MultiSim.simulate, isOkB, MultiSim.cifUSDof, MultiSim.inC3,
      MultiSim.sampleInput]
  exact ⟨hok, rfl, rfl, C3_mixed_excise_amended _ _ _ _ _ hok rfl rfl⟩

/-- C4: evaluation of the profitability aggregator at the failing inputs.
With sales 1000, acquisition cost 400 and operating expenses 100, the net
profit is 500 but the reported net margin is 71.43 — the code divides by
`utilidad_bruta + gastos_operativos` (600 + 100 = 700) instead of total
sales (1000), for which the margin would be 50.00.  And for a study case
with no export rows but an operating expense of 50, the net margin is
−100, not 0. -/
theorem C4_net_margin_code_evaluation :
    (Analisis.calcularUtilidadBruta Analisis.expC4 Analisis.impC4).ventas_totales = 1000 ∧
    (Analisis.calcularUtilidadNeta
        (Analisis.calcularUtilidadOperativa
          (Analisis.calcularUtilidadBruta Analisis.expC4 Analisis.impC4) Analisis.opC4)
        Analisis.gastosC4).utilidad_neta = 500 ∧
    (Analisis.calcularUtilidadNeta
        (Analisis.calcularUtilidadOperativa
          (Analisis.calcularUtilidadBruta Analisis.expC4 Analisis.impC4) Analisis.opC4)
        Analisis.gastosC4).margen_neto_porcentaje = 7143/100 ∧
    round2 ((500 : ℚ) / 1000 * 100) = 50 ∧
    ((7143 : ℚ)/100) ≠ 50 ∧
    (Analisis.calcularUtilidadNeta
        (Analisis.calcularUtilidadOperativa
          (Analisis.calcularUtilidadBruta [] []) Analisis.gastosC4b.operativos)
        Analisis.gastosC4b).margen_neto_porcentaje = -100 ∧
    ((-100 : ℚ)) ≠ 0 := by
  have hub : Analisis.calcularUtilidadBruta Analisis.expC4 Analisis.impC4 =
      { ventas_totales := 1000, costo_adquisicion := 400, utilidad_bruta := 600,
        margen_bruto_porcentaje := 60 } := by
    have r1 : round2 (1000 : ℚ) = 1000 := round2_eq_of_twoDec ⟨100000, by norm_num⟩
    have r2 : round2 (400 : ℚ) = 400 := round2_eq_of_twoDec ⟨40000, by norm_num⟩
    have r3 : round2 (600 : ℚ) = 600 := round2_eq_of_twoDec ⟨60000, by norm_num⟩
    have r4 : round2 (60 : ℚ) = 60 := round2_eq_of_twoDec ⟨6000, by norm_num⟩
    unfold Analisis.calcularUtilidadBruta Analisis.ventasTotalesOf Analisis.costoAdquisicionOf
    norm_num [Analisis.expC4, Analisis.impC4, Analisis.toUSD, r1, r2, r3, r4]
  have huo : Analisis.calcularUtilidadOperativa
      (Analisis.calcularUtilidadBruta Analisis.expC4 Analisis.impC4) Analisis.opC4 =
      { utilidad_bruta := 600, gastos_operativos := 100, utilidad_operativa := 500,
        margen_operativo_porcentaje := 50 } := by
    rw [hub]
    have r1 : round2 (100 : ℚ) = 100 := round2_eq_of_twoDec ⟨10000, by norm_num⟩
    have r2 : round2 (500 : ℚ) = 500 := round2_eq_of_twoDec ⟨50000, by norm_num⟩
    have r3 : round2 (50 : ℚ) = 50 := round2_eq_of_twoDec ⟨5000, by norm_num⟩
    unfold Analisis.calcularUtilidadOperativa Analisis.sumarGastos
    norm_num [Analisis.opC4, Analisis.toUSD, r1, r2, r3]
  have hun : Analisis.calcularUtilidadNeta
      (Analisis.calcularUtilidadOperativa
        (Analisis.calcularUtilidadBruta Analisis.expC4 Analisis.impC4) Analisis.opC4)
      Analisis.gastosC4 =
      { utilidad_operativa := 500, gastos_administrativos := 0, gastos_ventas := 0,
        gastos_financieros := 0, total_otros_gastos := 0, utilidad_neta := 500,
        margen_neto_porcentaje := 7143/100 } := by
    rw [huo]
    have r1 : round2 (500 : ℚ) = 500 := round2_eq_of_twoDec ⟨50000, by norm_num⟩
    have r2 : round2 ((500 : ℚ) / 7) = 7143/100 := by
      unfold round2
      have hf : ⌊(500 : ℚ) / 7 * 100 + 1/2⌋ = 7143 := by
        norm_num [Int.floor_eq_iff]
      rw [hf]
      norm_num
    unfold Analisis.calcularUtilidadNeta Analisis.sumarGastos
    norm_num [Analisis.gastosC4, Analisis.toUSD, round2_zero, r1, r2]
  have hun0 : Analisis.calcularUtilidadNeta
      (Analisis.calcularUtilidadOperativa
        (Analisis.calcularUtilidadBruta [] []) Analisis.gastosC4b.operativos)
      Analisis.gastosC4b =
      { utilidad_operativa := -50, gastos_administrativos := 0, gastos_ventas := 0,
        gastos_financieros := 0, total_otros_gastos := 0, utilidad_neta := -50,
        margen_neto_porcentaje := -100 } := by
    have hub0 : Analisis.calcularUtilidadBruta ([] : List Analisis.ExportacionDetalle)
        ([] : List Analisis.ImportacionDetalle) =
        { ventas_totales := 0, costo_adquisicion := 0, utilidad_bruta := 0,
          margen_bruto_porcentaje := 0 } := by
      unfold Analisis.calcularUtilidadBruta Analisis.ventasTotalesOf
        Analisis.costoAdquisicionOf
      norm_num [round2_zero]
    have huo0 : Analisis.calcularUtilidadOperativa
        { ventas_totales := 0, costo_adquisicion := 0, utilidad_bruta := 0,
          margen_bruto_porcentaje := 0 } Analisis.gastosC4b.operativos =
        { utilidad_bruta := 0, gastos_operativos := 50, utilidad_operativa := -50,
          margen_operativo_porcentaje := 0 } := by
      have r1 : round2 (50 : ℚ) = 50 := round2_eq_of_twoDec ⟨5000, by norm_num⟩
      have r2 : round2 (-50 : ℚ) = -50 := round2_eq_of_twoDec ⟨-5000, by norm_num⟩
      unfold Analisis.calcularUtilidadOperativa Analisis.sumarGastos
      norm_num [Analisis.gastosC4b, Analisis.toUSD, round2_zero, r1, r2]
    rw [hub0, huo0]
    have r1 : round2 (-50 : ℚ) = -50 := round2_eq_of_twoDec ⟨-5000, by norm_num⟩
    have r2 : round2 (-100 : ℚ) = -100 := round2_eq_of_twoDec ⟨-10000, by norm_num⟩
    have harg : ((-50 : ℚ) / (0 + 50) * 100) = -100 := by norm_num
    unfold Analisis.calcularUtilidadNeta Analisis.sumarGastos
    norm_num [Analisis.gastosC4b, Analisis.toUSD, round2_zero, r1, r2, harg]
  refine ⟨by rw [hub], by rw [hun], by rw [hun], ?_, by norm_num, by rw [hun0], by norm_num⟩
  have harg : ((500 : ℚ) / 1000 * 100) = 50 := by norm_num
  rw [harg]
  exact round2_eq_of_twoDec ⟨5000, by norm_num⟩

namespace MultiSim

theorem igvTotOf_eq (i : SimulationInput) (p : RuleProfile) (o : SimulationOverrides) :
    igvTotOf i p o = igv16of i p o + ipm2of i p o := by
  unfold igvTotOf
  exact round2_eq_of_twoDec ((twoDec_igv16 i p o).add (twoDec_ipm2 i p o))

theorem percepBaseOf_eq (i : SimulationInput) (p : RuleProfile) (o : SimulationOverrides) :
    percepBaseOf i p o =
      igvBaseOf i p o + igv16of i p o + ipm2of i p o + adcvdTotalOf i p o := by
  unfold percepBaseOf
  exact round2_eq_of_twoDec
    (((twoDec_round2 _).add (twoDec_igv16 i p o)).add (twoDec_ipm2 i p o) |>.add
      (twoDec_adcvdTotal i p o))

end MultiSim

/-- C5: in the multi-country `simulate`, the perception rate follows the
claimed precedence (public/amazon → 0, first-import/no-habido → 10%, used
goods → 5%, else 3.5%), an explicit override replaces the default and
switches the rule label to an override label, the perception base equals
VAT-family base + VAT-family total + trade-remedy total, and the amount is
`round2(base × rate)`. -/
theorem C5_perception_stage :
    ∀ (i : MultiSim.SimulationInput) (p : MultiSim.RuleProfile)
      (o : MultiSim.SimulationOverrides) (r : MultiSim.SimulationResult),
      MultiSim.simulate i p o = Except.ok r →
      r.percepcion.rate =
        (match o.perceptionRate with
         | Option.some pr => pr
         | Option.none =>
           if i.importerProfile = Option.some MultiSim.ImporterProfile.publicSector ∨
              i.importerProfile = Option.some MultiSim.ImporterProfile.amazon then 0
           else if i.importerProfile = Option.some MultiSim.ImporterProfile.first_import ∨
                   i.importerProfile = Option.some MultiSim.ImporterProfile.no_habido then
             1/10
           else if i.isUsed.getD false then 1/20
           else 35/1000) ∧
      (o.perceptionRate ≠ Option.none →
        (r.percepcion.rule = "Percepción override" ∨
         r.percepcion.rule = "Percepción override: 0%")) ∧
      r.percepcion.base = r.igv.base + r.igv.total + r.trade_remedies.total ∧
      r.percepcion.amount = round2 (r.percepcion.base * r.percepcion.rate) := by
  intro i p o r h
  have hr := MultiSim.simulate_ok i p o r h
  subst hr
  refine ⟨?_, ?_, ?_, rfl⟩
  · show MultiSim.percRateOf i o = _
    unfold MultiSim.percRateOf MultiSim.defaultPerception
    cases ho : o.perceptionRate with
    | some pr => rfl
    | none => split_ifs <;> rfl
  · intro hne
    show MultiSim.percRuleOf i o = _ ∨ MultiSim.percRuleOf i o = _
    unfold MultiSim.percRuleOf
    cases ho : o.perceptionRate with
    | some pr =>
      by_cases h0 : pr = 0
      · right; simp [h0]
      · left; simp [h0]
    | none => exact absurd ho hne
  · show MultiSim.percepBaseOf i p o = _
    rw [MultiSim.percepBaseOf_eq i p o]
    show _ = MultiSim.igvBaseOf i p o + MultiSim.igvTotOf i p o + MultiSim.adcvdTotalOf i p o
    rw [MultiSim.igvTotOf_eq i p o]
    ring

/-- C5 witness: the perception statement evaluated on a concrete input
(general-regime importer, no override). -/
theorem C5_perception_stage_witness :
    MultiSim.simulate MultiSim.sampleInput MultiSim.sampleProfile MultiSim.emptyOverrides =
      Except.ok (getOk (MultiSim.simulate MultiSim.sampleInput MultiSim.sampleProfile
        MultiSim.emptyOverrides) MultiSim.zeroResult) ∧
    (getOk (MultiSim.simulate MultiSim.sampleInput MultiSim.sampleProfile
       MultiSim.emptyOverrides) MultiSim.zeroResult).percepcion.rate = 35/1000 ∧
    (getOk (MultiSim.simulate MultiSim.sampleInput MultiSim.sampleProfile
       MultiSim.emptyOverrides) MultiSim.zeroResult).percepcion.base =
      (getOk (MultiSim.simulate MultiSim.sampleInput MultiSim.sampleProfile
         MultiSim.emptyOverrides) MultiSim.zeroResult).igv.base +
      (getOk (MultiSim.simulate MultiSim.sampleInput MultiSim.sampleProfile
         MultiSim.emptyOverrides) MultiSim.zeroResult).igv.total +
      (getOk (MultiSim.simulate MultiSim.sampleInput MultiSim.sampleProfile
         MultiSim.emptyOverrides) MultiSim.zeroResult).trade_remedies.total := by
  have hok : MultiSim.simulate MultiSim.sampleInput MultiSim.sampleProfile
      MultiSim.emptyOverrides =
      Except.ok (getOk (MultiSim.simulate MultiSim.sampleInput MultiSim.sampleProfile
        MultiSim.emptyOverrides) MultiSim.zeroResult) := by
    apply getOk_spec
    norm_num [MultiSim.simulate, isOkB, MultiSim.cifUSDof, MultiSim.sampleInput]
  have hc := C5_perception_stage _ _ _ _ hok
  exact ⟨hok, hc.1, hc.2.2.1⟩

/-- C6: the applied ad-valorem duty rate equals the claim's selection rule
(override first; else preferential when flagged, present and lower; else
MFN), and the preference branch records the preference note. -/
theorem C6_duty_rate_selection :
    ∀ (i : MultiSim.SimulationInput) (p : MultiSim.RuleProfile)
      (o : MultiSim.SimulationOverrides) (r : MultiSim.SimulationResult),
      MultiSim.simulate i p o = Except.ok r →
      r.arancel.rate = MultiSim.specDutyRate i p o ∧
      (o.adValoremRate = Option.none → i.useFTA.getD false = true →
        ∀ f, p.ftaRate = Option.some f → f < p.mfnRate →
          "Se aplicó preferencia arancelaria (TLC)." ∈ r.notes) := by
  intro i p o r h
  have hr := MultiSim.simulate_ok i p o r h
  subst hr
  constructor
  · show MultiSim.advalRateOf i p o = MultiSim.specDutyRate i p o
    unfold MultiSim.advalRateOf MultiSim.specDutyRate
    cases ho : o.adValoremRate with
    | some a => rfl
    | none =>
      cases hf : p.ftaRate with
      | none => rfl
      | some f =>
        by_cases huse : i.useFTA.getD false
        · by_cases hlt : f < p.mfnRate
          · simp [huse, hlt, min_eq_right hlt.le]
          · simp [huse, hlt, min_eq_left (not_lt.mp hlt)]
        · simp [huse]
  · intro ho huse f hf hlt
    show _ ∈ MultiSim.notesOf i p o
    unfold MultiSim.notesOf
    simp [ho, hf, huse, hlt]

/-- C6 witness: the duty-rate selection evaluated on a concrete input with
an applicable trade preference. -/
theorem C6_duty_rate_selection_witness :
    MultiSim.simulate MultiSim.ftaInput MultiSim.ftaProfile MultiSim.emptyOverrides =
      Except.ok (getOk (MultiSim.simulate MultiSim.ftaInput MultiSim.ftaProfile
        MultiSim.emptyOverrides) MultiSim.zeroResult) ∧
    (getOk (MultiSim.simulate MultiSim.ftaInput MultiSim.ftaProfile
       MultiSim.emptyOverrides) MultiSim.zeroResult).arancel.rate =
      MultiSim.specDutyRate MultiSim.ftaInput MultiSim.ftaProfile MultiSim.emptyOverrides ∧
    "Se aplicó preferencia arancelaria (TLC)." ∈
      (getOk (MultiSim.simulate MultiSim.ftaInput MultiSim.ftaProfile
        MultiSim.emptyOverrides) MultiSim.zeroResult).notes := by
  have hok : MultiSim.simulate MultiSim.ftaInput MultiSim.ftaProfile MultiSim.emptyOverrides =
      Except.ok (getOk (MultiSim.simulate MultiSim.ftaInput MultiSim.ftaProfile
        MultiSim.emptyOverrides) MultiSim.zeroResult) := by
    apply getOk_spec
    norm_num [MultiSim.simulate, isOkB, MultiSim.cifUSDof, MultiSim.ftaInput,
      MultiSim.sampleInput]
  have hc := C6_duty_rate_selection _ _ _ _ hok
  exact ⟨hok, hc.1, hc.2 rfl rfl (2/100) rfl (by norm_num [MultiSim.ftaProfile,
    MultiSim.sampleProfile])⟩

/-- C7: the special customs fee.  With an override: it applies exactly
when the override is strictly positive, and (multi-country) the amount is
the override converted at the fx rate — in the USD-only variant the amount
equals the rounded override when positive.  Without an override:
multi-country applies it exactly when the customs value base exceeds
`uit × thresholdUIT`, with amount `round2(uit × sdaRate)`, else 0; the
USD-only variant never applies it. -/
theorem C7_special_fee :
    (∀ (i : MultiSim.SimulationInput) (p : MultiSim.RuleProfile)
       (o : MultiSim.SimulationOverrides) (r : MultiSim.SimulationResult) (s : ℚ),
       MultiSim.simulate i p o = Except.ok r → o.sdaUsd = Option.some s →
       (r.sda.applies = true ↔ 0 < s) ∧ r.sda.amount = round2 (s * i.fxRate)) ∧
    (∀ (i : MultiSim.SimulationInput) (p : MultiSim.RuleProfile)
       (o : MultiSim.SimulationOverrides) (r : MultiSim.SimulationResult),
       MultiSim.simulate i p o = Except.ok r → o.sdaUsd = Option.none →
       (r.sda.applies = true ↔
         p.adminFees.uit * p.adminFees.thresholdUIT < r.cif_pen) ∧
       r.sda.amount = (if p.adminFees.uit * p.adminFees.thresholdUIT < r.cif_pen
         then round2 (p.adminFees.uit * p.adminFees.sdaRate) else 0)) ∧
    (∀ (i : UsdSim.SimulationInput) (p : UsdSim.RuleProfile)
       (o : UsdSim.SimulationOverrides) (r : UsdSim.SimulationResult) (s : ℚ),
       UsdSim.simulate i p o = Except.ok r → o.sdaUsd = Option.some s →
       (r.sda.applied = true ↔ 0 < s) ∧ (0 < s → r.sda.amount = round2 s)) ∧
    (∀ (i : UsdSim.SimulationInput) (p : UsdSim.RuleProfile)
       (o : UsdSim.SimulationOverrides) (r : UsdSim.SimulationResult),
       UsdSim.simulate i p o = Except.ok r → o.sdaUsd = Option.none →
       r.sda.applied = false ∧ r.sda.amount = 0) := by
  refine ⟨?_, ?_, ?_, ?_⟩
  · intro i p o r s h hs
    have hr := MultiSim.simulate_ok i p o r h
    subst hr
    constructor
    · show MultiSim.sdaAppliesOf i p o = true ↔ 0 < s
      unfold MultiSim.sdaAppliesOf
      simp [hs]
    · show MultiSim.sdaAmtOf i p o = _
      unfold MultiSim.sdaAmtOf
      simp [hs]
  · intro i p o r h hs
    have hr := MultiSim.simulate_ok i p o r h
    subst hr
    constructor
    · show MultiSim.sdaAppliesOf i p o = true ↔ _
      unfold MultiSim.sdaAppliesOf
      simp [hs]
    · show MultiSim.sdaAmtOf i p o = _
      unfold MultiSim.sdaAmtOf
      simp [hs]
  · intro i p o r s h hs
    have hr := UsdSim.simulate_ok_usd i p o r h
    subst hr
    constructor
    · show UsdSim.sdaAppliedOf o = true ↔ 0 < s
      unfold UsdSim.sdaAppliedOf
      simp [hs]
    · intro h0
      show UsdSim.sdaAmtOf o = _
      unfold UsdSim.sdaAmtOf
      simp [hs, h0]
  · intro i p o r h hs
    have hr := UsdSim.simulate_ok_usd i p o r h
    subst hr
    constructor
    · show UsdSim.sdaAppliedOf o = false
      unfold UsdSim.sdaAppliedOf
      simp [hs]
    · show UsdSim.sdaAmtOf o = 0
      unfold UsdSim.sdaAmtOf
      simp [hs]

/-- C7 witness: all four branches of the special-fee statement evaluated
on concrete inputs. -/
theorem C7_special_fee_witness :
    (MultiSim.simulate MultiSim.sampleInput MultiSim.sampleProfile MultiSim.sdaOverrides =
       Except.ok (getOk (MultiSim.simulate MultiSim.sampleInput MultiSim.sampleProfile
         MultiSim.sdaOverrides) MultiSim.zeroResult) ∧
     ((getOk (MultiSim.simulate MultiSim.sampleInput MultiSim.sampleProfile
        MultiSim.sdaOverrides) MultiSim.zeroResult).sda.applies = true ↔ (0 : ℚ) < 53) ∧
     (getOk (MultiSim.simulate MultiSim.sampleInput MultiSim.sampleProfile
        MultiSim.sdaOverrides) MultiSim.zeroResult).sda.amount =
       round2 (53 * MultiSim.sampleInput.fxRate)) ∧
    ((getOk (MultiSim.simulate MultiSim.sampleInput MultiSim.sampleProfile
        MultiSim.emptyOverrides) MultiSim.zeroResult).sda.applies = true ↔
       MultiSim.sampleProfile.adminFees.uit * MultiSim.sampleProfile.adminFees.thresholdUIT <
         (getOk (MultiSim.simulate MultiSim.sampleInput MultiSim.sampleProfile
           MultiSim.emptyOverrides) MultiSim.zeroResult).cif_pen) ∧
    ((getOk (UsdSim.simulate UsdSim.sampleInput UsdSim.sampleProfile UsdSim.sdaOverrides)
        UsdSim.zeroResult).sda.applied = true ↔ (0 : ℚ) < 53) ∧
    (getOk (UsdSim.simulate UsdSim.sampleInput UsdSim.sampleProfile UsdSim.sampleOverrides)
       UsdSim.zeroResult).sda.applied = false := by
  have hok1 : MultiSim.simulate MultiSim.sampleInput MultiSim.sampleProfile
      MultiSim.sdaOverrides =
      Except.ok (getOk (MultiSim.simulate MultiSim.sampleInput MultiSim.sampleProfile
        MultiSim.sdaOverrides) MultiSim.zeroResult) := by
    apply getOk_spec
    norm_num [MultiSim.simulate, isOkB, MultiSim.cifUSDof, MultiSim.sampleInput]
  have hok2 : MultiSim.simulate MultiSim.sampleInput MultiSim.sampleProfile
      MultiSim.emptyOverrides =
      Except.ok (getOk (MultiSim.simulate MultiSim.sampleInput MultiSim.sampleProfile
        MultiSim.emptyOverrides) MultiSim.zeroResult) := by
    apply getOk_spec
    norm_num [MultiSim.simulate, isOkB, MultiSim.cifUSDof, MultiSim.sampleInput]
  have hok3 : UsdSim.simulate UsdSim.sampleInput UsdSim.sampleProfile UsdSim.sdaOverrides =
      Except.ok (getOk (UsdSim.simulate UsdSim.sampleInput UsdSim.sampleProfile
        UsdSim.sdaOverrides) UsdSim.zeroResult) := by
    apply getOk_spec
    norm_num [UsdSim.simulate, isOkB, UsdSim.cifUsdOf, UsdSim.sampleInput]
  have hok4 : UsdSim.simulate UsdSim.sampleInput UsdSim.sampleProfile UsdSim.sampleOverrides =
      Except.ok (getOk (UsdSim.simulate UsdSim.sampleInput UsdSim.sampleProfile
        UsdSim.sampleOverrides) UsdSim.zeroResult) := by
    apply getOk_spec
    norm_num [UsdSim.simulate, isOkB, UsdSim.cifUsdOf, UsdSim.sampleInput]
  have h1 := C7_special_fee.1 _ _ _ _ 53 hok1 rfl
  have h2 := C7_special_fee.2.1 _ _ _ _ hok2 rfl
  have h3 := C7_special_fee.2.2.1 _ _ _ _ 53 hok3 rfl
  have h4 := C7_special_fee.2.2.2 _ _ _ _ hok4 rfl
  exact ⟨⟨hok1, h1.1, h1.2⟩, h2.1, h3.1, h4.1⟩

/-- C8: the USD-only scenario — FOB 1000, freight 150, insurance 50
(CIF 1200), ad-valorem 6% (duty 72.00), excise disabled, VAT 16%/2% on
base 1272.00 (203.52 + 25.44 = 228.96), perception disabled (0) — yields
customs debt 300.96 and amount payable 300.96. -/
theorem C8_usd_scenario :
    (UsdSim.simulate UsdSim.sampleInput UsdSim.sampleProfile UsdSim.sampleOverrides).map
      (fun r => (r.arancel.amount, r.igv.base, r.igv.igv16, r.igv.ipm2, r.igv.total,
        r.percepcion.amount, r.deuda_aduanera, r.pago_en_frontera)) =
    Except.ok (72, 1272, 20352/100, 2544/100, 22896/100, 0, 30096/100, 30096/100) := by
  have hcif : UsdSim.cifBaseOf UsdSim.sampleInput = 1200 := by
    have h1 : UsdSim.cifUsdOf UsdSim.sampleInput = 1200 := by
      norm_num [UsdSim.cifUsdOf, UsdSim.sampleInput]
    rw [UsdSim.cifBaseOf, h1]
    exact round2_eq_of_twoDec ⟨120000, by norm_num⟩
  have hav : UsdSim.avAmtOf UsdSim.sampleInput UsdSim.sampleProfile = 72 := by
    rw [UsdSim.avAmtOf, hcif]
    have harg : ((1200 : ℚ) * UsdSim.sampleProfile.adValoremRate) = 72 := by
      norm_num [UsdSim.sampleProfile]
    rw [harg]
    exact round2_eq_of_twoDec ⟨7200, by norm_num⟩
  have hisc : UsdSim.iscTotalOf UsdSim.sampleInput UsdSim.sampleProfile
      UsdSim.sampleOverrides = 0 := by
    simp [UsdSim.iscTotalOf, UsdSim.sampleOverrides]
  have hbase : UsdSim.igvBaseOf UsdSim.sampleInput UsdSim.sampleProfile
      UsdSim.sampleOverrides = 1272 := by
    rw [UsdSim.igvBaseOf, hcif, hav, hisc]
    have harg : ((1200 : ℚ) + 72 + 0) = 1272 := by norm_num
    rw [harg]
    exact round2_eq_of_twoDec ⟨127200, by norm_num⟩
  have h16 : UsdSim.igv16of UsdSim.sampleInput UsdSim.sampleProfile
      UsdSim.sampleOverrides = 20352/100 := by
    rw [UsdSim.igv16of, if_pos (show UsdSim.sampleOverrides.igvEnabled = true from rfl),
      hbase]
    have harg : ((1272 : ℚ) * UsdSim.sampleProfile.igvRate) = 20352/100 := by
      norm_num [UsdSim.sampleProfile]
    rw [harg]
    exact round2_eq_of_twoDec ⟨20352, by norm_num⟩
  have h2 : UsdSim.ipm2of UsdSim.sampleInput UsdSim.sampleProfile
      UsdSim.sampleOverrides = 2544/100 := by
    rw [UsdSim.ipm2of, if_pos (show UsdSim.sampleOverrides.igvEnabled = true from rfl),
      hbase]
    have harg : ((1272 : ℚ) * UsdSim.sampleProfile.ipmRate) = 2544/100 := by
      norm_num [UsdSim.sampleProfile]
    rw [harg]
    exact round2_eq_of_twoDec ⟨2544, by norm_num⟩
  have htot : UsdSim.igvTotOf UsdSim.sampleInput UsdSim.sampleProfile
      UsdSim.sampleOverrides = 22896/100 := by
    rw [UsdSim.igvTotOf, h16, h2]
    have harg : ((20352 : ℚ)/100 + 2544/100) = 22896/100 := by norm_num
    rw [harg]
    exact round2_eq_of_twoDec ⟨22896, by norm_num⟩
  have hrem : UsdSim.remediesTotalOf UsdSim.sampleOverrides = 0 := by
    simp [UsdSim.remediesTotalOf, UsdSim.remedyItemsOf, UsdSim.sampleOverrides]
  have hperc : UsdSim.percAmtOf UsdSim.sampleInput UsdSim.sampleProfile
      UsdSim.sampleOverrides = 0 := by
    simp [UsdSim.percAmtOf, UsdSim.sampleOverrides]
  have hsda : UsdSim.sdaAmtOf UsdSim.sampleOverrides = 0 := by
    simp [UsdSim.sdaAmtOf, UsdSim.sampleOverrides]
  have hdeuda : UsdSim.deudaOf UsdSim.sampleInput UsdSim.sampleProfile
      UsdSim.sampleOverrides = 30096/100 := by
    rw [UsdSim.deudaOf, hav, hisc, htot, hrem, hsda]
    have harg : ((72 : ℚ) + 0 + 22896/100 + 0 + 0) = 30096/100 := by norm_num
    rw [harg]
    exact round2_eq_of_twoDec ⟨30096, by norm_num⟩
  have hpago : UsdSim.pagoFronteraOf UsdSim.sampleInput UsdSim.sampleProfile
      UsdSim.sampleOverrides = 30096/100 := by
    rw [UsdSim.pagoFronteraOf, hdeuda, hperc]
    have harg : ((30096 : ℚ)/100 + 0) = 30096/100 := by norm_num
    rw [harg]
    exact round2_eq_of_twoDec ⟨30096, by norm_num⟩
  have hcond : ¬ UsdSim.cifUsdOf UsdSim.sampleInput = 0 := by
    norm_num [UsdSim.cifUsdOf, UsdSim.sampleInput]
  unfold UsdSim.simulate
  rw [if_neg hcond]
  simp only [Except.map]
  rw [hav, hbase, h16, h2, htot, hperc, hdeuda, hpago]

/-- C10 counterexample: in the USD-only variant, an antidumping override
of −5 — not strictly positive — still contributes an itemized entry and a
trade-remedy total of −5, while omitting the override gives total 0; this
contradicts "only strictly positive override amounts contribute". -/
theorem C10_zero_remedy_counterexample :
    (UsdSim.simulate UsdSim.sampleInput UsdSim.sampleProfile UsdSim.negAdOverrides).map
      (fun r => r.trade_remedies.total) = Except.ok (-5) ∧
    (UsdSim.simulate UsdSim.sampleInput UsdSim.sampleProfile UsdSim.sampleOverrides).map
      (fun r => r.trade_remedies.total) = Except.ok 0 ∧
    ¬ (0 : ℚ) < -5 ∧ ((-5 : ℚ)) ≠ 0 := by
  have hcond : ¬ UsdSim.cifUsdOf UsdSim.sampleInput = 0 := by
    norm_num [UsdSim.cifUsdOf, UsdSim.sampleInput]
  refine ⟨?_, ?_, by norm_num, by norm_num⟩
  · unfold UsdSim.simulate
    rw [if_neg hcond]
    simp only [Except.map]
    have hr : UsdSim.remediesTotalOf UsdSim.negAdOverrides = -5 := by
      have hm5 : round2 (-5 : ℚ) = -5 := round2_eq_of_twoDec ⟨-500, by norm_num⟩
      simp [UsdSim.remediesTotalOf, UsdSim.remedyItemsOf, UsdSim.negAdOverrides,
        UsdSim.sampleOverrides, hm5]
    rw [hr]
  · unfold UsdSim.simulate
    rw [if_neg hcond]
    simp only [Except.map]
    have hr : UsdSim.remediesTotalOf UsdSim.sampleOverrides = 0 := by
      simp [UsdSim.remediesTotalOf, UsdSim.remedyItemsOf, UsdSim.sampleOverrides]
    rw [hr]

namespace MultiSim

/-- Two override records that agree on the duty override, the perception
override, the SDA override and the produced AD/CVD item list produce
identical simulations. -/
theorem simulate_congr (i : SimulationInput) (p : RuleProfile)
    (o₁ o₂ : SimulationOverrides)
    (hav : o₁.adValoremRate = o₂.adValoremRate)
    (hperc : o₁.perceptionRate = o₂.perceptionRate)
    (hsda : o₁.sdaUsd = o₂.sdaUsd)
    (hitems : adcvdItemsOf i p o₁ = adcvdItemsOf i p o₂) :
    simulate i p o₁ = simulate i p o₂ := by
  have hadval : advalRateOf i p o₁ = advalRateOf i p o₂ := by
    unfold advalRateOf
    rw [hav]
  have hdA : dArancelOf i p o₁ = dArancelOf i p o₂ := by
    unfold dArancelOf
    rw [hadval]
  have hisc : iscTotalOf i p o₁ = iscTotalOf i p o₂ := by
    unfold iscTotalOf
    rw [hdA]
  have hiscD : iscDetailOf i p o₁ = iscDetailOf i p o₂ := by
    unfold iscDetailOf
    rw [hdA]
  have htot : adcvdTotalOf i p o₁ = adcvdTotalOf i p o₂ := by
    unfold adcvdTotalOf
    rw [hitems]
  have hbase : igvBaseOf i p o₁ = igvBaseOf i p o₂ := by
    unfold igvBaseOf
    rw [hdA, hisc]
  have h16 : igv16of i p o₁ = igv16of i p o₂ := by
    unfold igv16of
    rw [hbase]
  have h2 : ipm2of i p o₁ = ipm2of i p o₂ := by
    unfold ipm2of
    rw [hbase]
  have hvtot : igvTotOf i p o₁ = igvTotOf i p o₂ := by
    unfold igvTotOf
    rw [h16, h2]
  have hpr : percRateOf i o₁ = percRateOf i o₂ := by
    unfold percRateOf
    rw [hperc]
  have hprl : percRuleOf i o₁ = percRuleOf i o₂ := by
    unfold percRuleOf
    rw [hperc]
  have hpb : percepBaseOf i p o₁ = percepBaseOf i p o₂ := by
    unfold percepBaseOf
    rw [hbase, h16, h2, htot]
  have hpa : percepAmtOf i p o₁ = percepAmtOf i p o₂ := by
    unfold percepAmtOf
    rw [hpb, hpr]
  have hsa : sdaAppliesOf i p o₁ = sdaAppliesOf i p o₂ := by
    unfold sdaAppliesOf
    rw [hsda]
  have hsm : sdaAmtOf i p o₁ = sdaAmtOf i p o₂ := by
    unfold sdaAmtOf
    rw [hsda]
  have hd : deudaOf i p o₁ = deudaOf i p o₂ := by
    unfold deudaOf
    rw [hdA, hisc, hvtot, htot, hsm]
  have hp : pagoFronteraOf i p o₁ = pagoFronteraOf i p o₂ := by
    unfold pagoFronteraOf
    rw [hd, hpa]
  have hn : notesOf i p o₁ = notesOf i p o₂ := by
    unfold notesOf
    rw [hav]
  unfold simulate
  rw [hadval, hdA, hiscD, hisc, hitems, htot, hbase, h16, h2, hvtot, hpr, hpb, hpa, hprl,
    hsa, hsm, hd, hp, hn]

end MultiSim

namespace UsdSim

/-- Two override records that agree on the toggles, the ISC and perception
overrides, the SDA override and the produced AD/CVD item list produce
identical USD-only simulations. -/
theorem simulate_congr_usd (i : SimulationInput) (p : RuleProfile)
    (o₁ o₂ : SimulationOverrides)
    (higv : o₁.igvEnabled = o₂.igvEnabled)
    (hisce : o₁.iscEnabled = o₂.iscEnabled)
    (hpe : o₁.perceptionEnabled = o₂.perceptionEnabled)
    (hiscr : o₁.iscRate = o₂.iscRate)
    (hperc : o₁.perceptionRate = o₂.perceptionRate)
    (hsda : o₁.sdaUsd = o₂.sdaUsd)
    (hitems : remedyItemsOf o₁ = remedyItemsOf o₂) :
    simulate i p o₁ = simulate i p o₂ := by
  have hisct : iscTotalOf i p o₁ = iscTotalOf i p o₂ := by
    unfold iscTotalOf
    rw [hisce, hiscr]
  have hisca : iscAppliedOf o₁ = iscAppliedOf o₂ := by
    unfold iscAppliedOf
    rw [hisce, hiscr]
  have hiscd : iscDetailsOf o₁ = iscDetailsOf o₂ := by
    unfold iscDetailsOf
    rw [hisce, hiscr]
  have htot : remediesTotalOf o₁ = remediesTotalOf o₂ := by
    unfold remediesTotalOf
    rw [hitems]
  have hbase : igvBaseOf i p o₁ = igvBaseOf i p o₂ := by
    unfold igvBaseOf
    rw [hisct]
  have h16 : igv16of i p o₁ = igv16of i p o₂ := by
    unfold igv16of
    rw [higv, hbase]
  have h2 : ipm2of i p o₁ = ipm2of i p o₂ := by
    unfold ipm2of
    rw [higv, hbase]
  have hvtot : igvTotOf i p o₁ = igvTotOf i p o₂ := by
    unfold igvTotOf
    rw [h16, h2]
  have hpr : percRateOf i o₁ = percRateOf i o₂ := by
    unfold percRateOf
    rw [hpe, hperc]
  have hprl : percRuleOf i o₁ = percRuleOf i o₂ := by
    unfold percRuleOf
    rw [hpe, hperc]
  have hpb : percBaseOf i p o₁ = percBaseOf i p o₂ := by
    unfold percBaseOf
    rw [hpe, hbase, h16, h2, htot]
  have hpa : percAmtOf i p o₁ = percAmtOf i p o₂ := by
    unfold percAmtOf
    rw [hpe, hpb, hpr]
  have hpap : percAppliedOf i o₁ = percAppliedOf i o₂ := by
    unfold percAppliedOf
    rw [hpe, hpr]
  have hsa : sdaAppliedOf o₁ = sdaAppliedOf o₂ := by
    unfold sdaAppliedOf
    rw [hsda]
  have hsm : sdaAmtOf o₁ = sdaAmtOf o₂ := by
    unfold sdaAmtOf
    rw [hsda]
  have hd : deudaOf i p o₁ = deudaOf i p o₂ := by
    unfold deudaOf
    rw [hisct, hvtot, htot, hsm]
  have hp : pagoFronteraOf i p o₁ = pagoFronteraOf i p o₂ := by
    unfold pagoFronteraOf
    rw [hd, hpa]
  have hn : notesOf o₁ = notesOf o₂ := by
    unfold notesOf
    rw [higv]
  unfold simulate
  rw [higv, hisca, hisct, hiscd, hitems, htot, hbase, h16, h2, hvtot, hpap, hpr, hpb, hpa,
    hprl, hsa, hsm, hd, hp, hn]

end UsdSim

/-- C10 (amended): a trade-remedy override equal to 0 behaves exactly as
an omitted override in both variants (the full results are identical); in
the multi-country variant this extends to every non-positive override
amount, while in the USD-only variant any nonzero override — including a
negative one — contributes its rounded amount. -/
theorem C10_zero_remedy_override_amended :
    (∀ (i : MultiSim.SimulationInput) (p : MultiSim.RuleProfile)
       (o : MultiSim.SimulationOverrides) (a : ℚ), a ≤ 0 →
       MultiSim.simulate i p { o with antidumpingUsd := Option.some a } =
         MultiSim.simulate i p { o with antidumpingUsd := Option.none } ∧
       MultiSim.simulate i p { o with countervailingUsd := Option.some a } =
         MultiSim.simulate i p { o with countervailingUsd := Option.none }) ∧
    (∀ (i : UsdSim.SimulationInput) (p : UsdSim.RuleProfile)
       (o : UsdSim.SimulationOverrides),
       UsdSim.simulate i p { o with antidumpingUsd := Option.some 0 } =
         UsdSim.simulate i p { o with antidumpingUsd := Option.none } ∧
       UsdSim.simulate i p { o with countervailingUsd := Option.some 0 } =
         UsdSim.simulate i p { o with countervailingUsd := Option.none }) := by
  constructor
  · intro i p o a ha
    have hna : ¬ (0 < a) := not_lt.mpr ha
    constructor
    · exact MultiSim.simulate_congr i p { o with antidumpingUsd := Option.some a }
        { o with antidumpingUsd := Option.none } rfl rfl rfl
        (by unfold MultiSim.adcvdItemsOf; simp [hna])
    · exact MultiSim.simulate_congr i p { o with countervailingUsd := Option.some a }
        { o with countervailingUsd := Option.none } rfl rfl rfl
        (by unfold MultiSim.adcvdItemsOf; simp [hna])
  · intro i p o
    constructor
    · exact UsdSim.simulate_congr_usd i p { o with antidumpingUsd := Option.some 0 }
        { o with antidumpingUsd := Option.none } rfl rfl rfl rfl rfl rfl
        (by unfold UsdSim.remedyItemsOf; simp)
    · exact UsdSim.simulate_congr_usd i p { o with countervailingUsd := Option.some 0 }
        { o with countervailingUsd := Option.none } rfl rfl rfl rfl rfl rfl
        (by unfold UsdSim.remedyItemsOf; simp)

/-- C10 amended witness: the zero-override identity evaluated on concrete
inputs of both variants. -/
theorem C10_zero_remedy_override_amended_witness :
    ((0 : ℚ) ≤ 0 ∧
     MultiSim.simulate MultiSim.sampleInput MultiSim.sampleProfile
         { MultiSim.emptyOverrides with antidumpingUsd := Option.some 0 } =
       MultiSim.simulate MultiSim.sampleInput MultiSim.sampleProfile
         { MultiSim.emptyOverrides with antidumpingUsd := Option.none }) ∧
    UsdSim.simulate UsdSim.sampleInput UsdSim.sampleProfile
        { UsdSim.sampleOverrides with countervailingUsd := Option.some 0 } =
      UsdSim.simulate UsdSim.sampleInput UsdSim.sampleProfile
        { UsdSim.sampleOverrides with countervailingUsd := Option.none } := by
  refine ⟨⟨le_refl 0, ?_⟩, ?_⟩
  · exact (C10_zero_remedy_override_amended.1 MultiSim.sampleInput MultiSim.sampleProfile
      MultiSim.emptyOverrides 0 (le_refl 0)).1
  · exact (C10_zero_remedy_override_amended.2 UsdSim.sampleInput UsdSim.sampleProfile
      UsdSim.sampleOverrides).2

theorem map_sum_mono {α : Type} (l : List α) (f g : α → ℚ) (h : ∀ x ∈ l, f x ≤ g x) :
    (l.map f).sum ≤ (l.map g).sum := by
  induction l with
  | nil => simp
  | cons a t ih =>
    rw [List.map_cons, List.map_cons, List.sum_cons, List.sum_cons]
    exact add_le_add (h a (by simp)) (ih (fun x hx => h x (by simp [hx])))

namespace MultiSim

theorem advalRateOf_agree {i₁ i₂ : SimulationInput} (p : RuleProfile)
    (o : SimulationOverrides) (hA : AgreeExceptBase i₁ i₂) :
    advalRateOf i₁ p o = advalRateOf i₂ p o := by
  unfold advalRateOf
  rw [hA.useFTA]

theorem advalRateOf_nonneg (i : SimulationInput) (p : RuleProfile) (o : SimulationOverrides)
    (hmfn : 0 ≤ p.mfnRate)
    (hfta : ∀ f, p.ftaRate = Option.some f → 0 ≤ f)
    (hov : ∀ x, o.adValoremRate = Option.some x → 0 ≤ x) :
    0 ≤ advalRateOf i p o := by
  unfold advalRateOf
  split
  · rename_i x heq
    exact hov x heq
  · split
    · rename_i f heq
      split
      · exact le_min hmfn (hfta f heq)
      · exact hmfn
    · exact hmfn

theorem cifPENof_mono {i₁ i₂ : SimulationInput} (hA : AgreeExceptBase i₁ i₂)
    (hfx : 0 ≤ i₁.fxRate) (hc : cifUSDof i₁ ≤ cifUSDof i₂) :
    cifPENof i₁ ≤ cifPENof i₂ := by
  unfold cifPENof
  apply round2_mono
  rw [← hA.fx]
  exact mul_le_mul_of_nonneg_right hc hfx

theorem dArancelOf_mono {i₁ i₂ : SimulationInput} (p : RuleProfile) (o : SimulationOverrides)
    (hA : AgreeExceptBase i₁ i₂) (hrate : 0 ≤ advalRateOf i₁ p o)
    (hc : cifPENof i₁ ≤ cifPENof i₂) :
    dArancelOf i₁ p o ≤ dArancelOf i₂ p o := by
  unfold dArancelOf
  apply round2_mono
  rw [← advalRateOf_agree p o hA]
  exact mul_le_mul_of_nonneg_right hc hrate

theorem iscTotalOf_mono {i₁ i₂ : SimulationInput} (p : RuleProfile) (o : SimulationOverrides)
    (hA : AgreeExceptBase i₁ i₂)
    (hisc : ∀ rule, p.iscRule = Option.some rule → ∀ x, rule.adValRate = Option.some x →
      0 ≤ x)
    (hc : cifPENof i₁ ≤ cifPENof i₂) (hd : dArancelOf i₁ p o ≤ dArancelOf i₂ p o) :
    iscTotalOf i₁ p o ≤ iscTotalOf i₂ p o := by
  unfold iscTotalOf
  split
  · exact le_refl 0
  · rename_i rule heq
    have hq : 0 ≤ rule.adValRate.getD 0 := by
      cases ha : rule.adValRate with
      | none => simp
      | some x => simpa using hisc rule heq x ha
    split
    · exact round2_mono (mul_le_mul_of_nonneg_right (add_le_add hc hd) hq)
    · rw [hA.quantity]
    · rw [hA.quantity, hA.alcoholDegree]
      exact add_le_add (le_refl _)
        (round2_mono (mul_le_mul_of_nonneg_right (add_le_add hc hd) hq))
    · exact le_refl 0

theorem igvBaseOf_mono {i₁ i₂ : SimulationInput} (p : RuleProfile) (o : SimulationOverrides)
    (hc : cifPENof i₁ ≤ cifPENof i₂) (hd : dArancelOf i₁ p o ≤ dArancelOf i₂ p o)
    (hi : iscTotalOf i₁ p o ≤ iscTotalOf i₂ p o) :
    igvBaseOf i₁ p o ≤ igvBaseOf i₂ p o := by
  unfold igvBaseOf
  exact round2_mono (add_le_add (add_le_add hc hd) hi)

theorem igv16of_mono {i₁ i₂ : SimulationInput} (p : RuleProfile) (o : SimulationOverrides)
    (hb : igvBaseOf i₁ p o ≤ igvBaseOf i₂ p o) :
    igv16of i₁ p o ≤ igv16of i₂ p o := by
  unfold igv16of
  split
  · exact le_refl 0
  · exact round2_mono (mul_le_mul_of_nonneg_right hb (by norm_num))

theorem ipm2of_mono {i₁ i₂ : SimulationInput} (p : RuleProfile) (o : SimulationOverrides)
    (hb : igvBaseOf i₁ p o ≤ igvBaseOf i₂ p o) :
    ipm2of i₁ p o ≤ ipm2of i₂ p o := by
  unfold ipm2of
  split
  · exact le_refl 0
  · exact round2_mono (mul_le_mul_of_nonneg_right hb (by norm_num))

theorem igvTotOf_mono {i₁ i₂ : SimulationInput} (p : RuleProfile) (o : SimulationOverrides)
    (h16 : igv16of i₁ p o ≤ igv16of i₂ p o) (h2 : ipm2of i₁ p o ≤ ipm2of i₂ p o) :
    igvTotOf i₁ p o ≤ igvTotOf i₂ p o := by
  unfold igvTotOf
  exact round2_mono (add_le_add h16 h2)

theorem adcvdTotalOf_mono {i₁ i₂ : SimulationInput} (p : RuleProfile)
    (o : SimulationOverrides) (hA : AgreeExceptBase i₁ i₂)
    (htr : ∀ t ∈ p.tradeRemedies, t.mode = RemedyMode.ad_valorem → 0 ≤ t.rateOrAmount)
    (hc : cifPENof i₁ ≤ cifPENof i₂) :
    adcvdTotalOf i₁ p o ≤ adcvdTotalOf i₂ p o := by
  unfold adcvdTotalOf adcvdItemsOf
  rw [List.map_append, List.map_append, List.sum_append, List.sum_append,
    List.map_append, List.map_append, List.sum_append, List.sum_append]
  have hdb : ((p.tradeRemedies.map (fun r =>
      match r.mode with
      | RemedyMode.ad_valorem =>
        ({ rtype := r.rtype, mode := r.mode, amount := round2 (cifPENof i₁ * r.rateOrAmount),
           source := RemedySource.db } : RemedyItem)
      | RemedyMode.specific =>
        { rtype := r.rtype, mode := r.mode,
          amount := round2 (i₁.quantity.getD 0 * r.rateOrAmount),
          source := RemedySource.db })).map (fun x => x.amount)).sum ≤
      ((p.tradeRemedies.map (fun r =>
      match r.mode with
      | RemedyMode.ad_valorem =>
        ({ rtype := r.rtype, mode := r.mode, amount := round2 (cifPENof i₂ * r.rateOrAmount),
           source := RemedySource.db } : RemedyItem)
      | RemedyMode.specific =>
        { rtype := r.rtype, mode := r.mode,
          amount := round2 (i₂.quantity.getD 0 * r.rateOrAmount),
          source := RemedySource.db })).map (fun x => x.amount)).sum := by
    rw [List.map_map, List.map_map]
    apply map_sum_mono
    intro t ht
    cases hm : t.mode with
    | ad_valorem =>
      simp only [Function.comp, hm]
      exact round2_mono (mul_le_mul_of_nonneg_right hc (htr t ht hm))
    | specific =>
      simp only [Function.comp, hm, hA.quantity]
      exact le_refl _
  refine add_le_add (add_le_add hdb ?_) ?_
  · rw [hA.fx]
  · rw [hA.fx]

theorem percRateOf_nonneg (i : SimulationInput) (o : SimulationOverrides)
    (hpr : ∀ x, o.perceptionRate = Option.some x → 0 ≤ x) :
    0 ≤ percRateOf i o := by
  unfold percRateOf
  split
  · rename_i x heq
    exact hpr x heq
  · unfold defaultPerception
    split_ifs <;> norm_num

theorem percRateOf_agree {i₁ i₂ : SimulationInput} (o : SimulationOverrides)
    (hA : AgreeExceptBase i₁ i₂) : percRateOf i₁ o = percRateOf i₂ o := by
  unfold percRateOf
  rw [hA.importerProfile, hA.isUsed]

theorem percepAmtOf_mono {i₁ i₂ : SimulationInput} (p : RuleProfile)
    (o : SimulationOverrides) (hA : AgreeExceptBase i₁ i₂)
    (hprn : 0 ≤ percRateOf i₁ o)
    (hb : igvBaseOf i₁ p o ≤ igvBaseOf i₂ p o)
    (h16 : igv16of i₁ p o ≤ igv16of i₂ p o) (h2 : ipm2of i₁ p o ≤ ipm2of i₂ p o)
    (ha : adcvdTotalOf i₁ p o ≤ adcvdTotalOf i₂ p o) :
    percepAmtOf i₁ p o ≤ percepAmtOf i₂ p o := by
  have hpb : percepBaseOf i₁ p o ≤ percepBaseOf i₂ p o := by
    unfold percepBaseOf
    exact round2_mono (add_le_add (add_le_add (add_le_add hb h16) h2) ha)
  unfold percepAmtOf
  apply round2_mono
  rw [← percRateOf_agree o hA]
  exact mul_le_mul_of_nonneg_right hpb hprn

end MultiSim

namespace UsdSim

theorem cifBaseOf_mono {i₁ i₂ : SimulationInput} (hc : cifUsdOf i₁ ≤ cifUsdOf i₂) :
    cifBaseOf i₁ ≤ cifBaseOf i₂ := round2_mono hc

theorem avAmtOf_mono {i₁ i₂ : SimulationInput} (p : RuleProfile)
    (hav : 0 ≤ p.adValoremRate) (hb : cifBaseOf i₁ ≤ cifBaseOf i₂) :
    avAmtOf i₁ p ≤ avAmtOf i₂ p := by
  unfold avAmtOf
  exact round2_mono (mul_le_mul_of_nonneg_right hb hav)

theorem iscTotalOf_mono_usd {i₁ i₂ : SimulationInput} (p : RuleProfile)
    (o : SimulationOverrides) (hiscr : ∀ x, o.iscRate = Option.some x → 0 ≤ x)
    (hb : cifBaseOf i₁ ≤ cifBaseOf i₂) (hv : avAmtOf i₁ p ≤ avAmtOf i₂ p) :
    iscTotalOf i₁ p o ≤ iscTotalOf i₂ p o := by
  unfold iscTotalOf
  split
  · have hq : 0 ≤ o.iscRate.getD 0 := by
      cases ha : o.iscRate with
      | none => simp
      | some x => simpa using hiscr x ha
    exact round2_mono (mul_le_mul_of_nonneg_right (round2_mono (add_le_add hb hv)) hq)
  · exact le_refl 0

theorem igvBaseOf_mono_usd {i₁ i₂ : SimulationInput} (p : RuleProfile)
    (o : SimulationOverrides) (hb : cifBaseOf i₁ ≤ cifBaseOf i₂)
    (hv : avAmtOf i₁ p ≤ avAmtOf i₂ p) (hi : iscTotalOf i₁ p o ≤ iscTotalOf i₂ p o) :
    igvBaseOf i₁ p o ≤ igvBaseOf i₂ p o := by
  unfold igvBaseOf
  exact round2_mono (add_le_add (add_le_add hb hv) hi)

theorem igv16of_mono_usd {i₁ i₂ : SimulationInput} (p : RuleProfile) (o : SimulationOverrides)
    (hr : 0 ≤ p.igvRate) (hb : igvBaseOf i₁ p o ≤ igvBaseOf i₂ p o) :
    igv16of i₁ p o ≤ igv16of i₂ p o := by
  unfold igv16of
  split
  · exact round2_mono (mul_le_mul_of_nonneg_right hb hr)
  · exact le_refl 0

theorem ipm2of_mono_usd {i₁ i₂ : SimulationInput} (p : RuleProfile) (o : SimulationOverrides)
    (hr : 0 ≤ p.ipmRate) (hb : igvBaseOf i₁ p o ≤ igvBaseOf i₂ p o) :
    ipm2of i₁ p o ≤ ipm2of i₂ p o := by
  unfold ipm2of
  split
  · exact round2_mono (mul_le_mul_of_nonneg_right hb hr)
  · exact le_refl 0

theorem igvTotOf_mono_usd {i₁ i₂ : SimulationInput} (p : RuleProfile) (o : SimulationOverrides)
    (h16 : igv16of i₁ p o ≤ igv16of i₂ p o) (h2 : ipm2of i₁ p o ≤ ipm2of i₂ p o) :
    igvTotOf i₁ p o ≤ igvTotOf i₂ p o := by
  unfold igvTotOf
  exact round2_mono (add_le_add h16 h2)

theorem percRateOf_nonneg_usd (i : SimulationInput) (o : SimulationOverrides)
    (hpr : ∀ x, o.perceptionRate = Option.some x → 0 ≤ x) :
    0 ≤ percRateOf i o := by
  unfold percRateOf
  split
  · split
    · rename_i x heq
      exact hpr x heq
    · unfold MultiSim.defaultPerception
      split_ifs <;> norm_num
  · exact le_refl 0

theorem percRateOf_agree_usd {i₁ i₂ : SimulationInput} (o : SimulationOverrides)
    (hA : AgreeExceptBase i₁ i₂) : percRateOf i₁ o = percRateOf i₂ o := by
  unfold percRateOf
  rw [hA.importerProfile, hA.isUsed]

theorem percAmtOf_mono {i₁ i₂ : SimulationInput} (p : RuleProfile)
    (o : SimulationOverrides) (hA : AgreeExceptBase i₁ i₂)
    (hprn : 0 ≤ percRateOf i₁ o)
    (hb : igvBaseOf i₁ p o ≤ igvBaseOf i₂ p o)
    (h16 : igv16of i₁ p o ≤ igv16of i₂ p o) (h2 : ipm2of i₁ p o ≤ ipm2of i₂ p o) :
    percAmtOf i₁ p o ≤ percAmtOf i₂ p o := by
  have hpb : percBaseOf i₁ p o ≤ percBaseOf i₂ p o := by
    unfold percBaseOf
    split
    · exact round2_mono (add_le_add (add_le_add (add_le_add hb h16) h2) (le_refl _))
    · exact le_refl 0
  unfold percAmtOf
  split
  · apply round2_mono
    rw [← percRateOf_agree_usd o hA]
    exact mul_le_mul_of_nonneg_right hpb hprn
  · exact le_refl 0

end UsdSim

/-- C9: for two valid inputs that differ only in the customs value base
(the second at least the first), with nonnegative rates and all other
fields, toggles and overrides fixed, duty, excise total, VAT-family total
and perception amount are each monotone non-decreasing, in both variants. -/
theorem C9_base_monotonicity :
    (∀ (i₁ i₂ : MultiSim.SimulationInput) (p : MultiSim.RuleProfile)
       (o : MultiSim.SimulationOverrides) (r₁ r₂ : MultiSim.SimulationResult),
       MultiSim.AgreeExceptBase i₁ i₂ →
       MultiSim.cifUSDof i₁ ≤ MultiSim.cifUSDof i₂ →
       0 ≤ i₁.fxRate →
       0 ≤ p.mfnRate →
       (∀ f, p.ftaRate = Option.some f → 0 ≤ f) →
       (∀ x, o.adValoremRate = Option.some x → 0 ≤ x) →
       (∀ rule, p.iscRule = Option.some rule →
         ∀ x, rule.adValRate = Option.some x → 0 ≤ x) →
       (∀ t ∈ p.tradeRemedies, t.mode = MultiSim.RemedyMode.ad_valorem →
         0 ≤ t.rateOrAmount) →
       (∀ x, o.perceptionRate = Option.some x → 0 ≤ x) →
       MultiSim.simulate i₁ p o = Except.ok r₁ →
       MultiSim.simulate i₂ p o = Except.ok r₂ →
       r₁.arancel.amount ≤ r₂.arancel.amount ∧ r₁.isc.total ≤ r₂.isc.total ∧
       r₁.igv.total ≤ r₂.igv.total ∧ r₁.percepcion.amount ≤ r₂.percepcion.amount) ∧
    (∀ (i₁ i₂ : UsdSim.SimulationInput) (p : UsdSim.RuleProfile)
       (o : UsdSim.SimulationOverrides) (r₁ r₂ : UsdSim.SimulationResult),
       UsdSim.AgreeExceptBase i₁ i₂ →
       UsdSim.cifUsdOf i₁ ≤ UsdSim.cifUsdOf i₂ →
       0 ≤ p.adValoremRate → 0 ≤ p.igvRate → 0 ≤ p.ipmRate →
       (∀ x, o.iscRate = Option.some x → 0 ≤ x) →
       (∀ x, o.perceptionRate = Option.some x → 0 ≤ x) →
       UsdSim.simulate i₁ p o = Except.ok r₁ →
       UsdSim.simulate i₂ p o = Except.ok r₂ →
       r₁.arancel.amount ≤ r₂.arancel.amount ∧ r₁.isc.total ≤ r₂.isc.total ∧
       r₁.igv.total ≤ r₂.igv.total ∧ r₁.percepcion.amount ≤ r₂.percepcion.amount) := by
  constructor
  · intro i₁ i₂ p o r₁ r₂ hA hcif hfx hmfn hfta hov hisc htr hpr h₁ h₂
    have hr₁ := MultiSim.simulate_ok i₁ p o r₁ h₁
    have hr₂ := MultiSim.simulate_ok i₂ p o r₂ h₂
    subst hr₁
    subst hr₂
    have hc : MultiSim.cifPENof i₁ ≤ MultiSim.cifPENof i₂ :=
      MultiSim.cifPENof_mono hA hfx hcif
    have hrate : 0 ≤ MultiSim.advalRateOf i₁ p o :=
      MultiSim.advalRateOf_nonneg i₁ p o hmfn hfta hov
    have hd : MultiSim.dArancelOf i₁ p o ≤ MultiSim.dArancelOf i₂ p o :=
      MultiSim.dArancelOf_mono p o hA hrate hc
    have hi : MultiSim.iscTotalOf i₁ p o ≤ MultiSim.iscTotalOf i₂ p o :=
      MultiSim.iscTotalOf_mono p o hA hisc hc hd
    have hb : MultiSim.igvBaseOf i₁ p o ≤ MultiSim.igvBaseOf i₂ p o :=
      MultiSim.igvBaseOf_mono p o hc hd hi
    have h16 : MultiSim.igv16of i₁ p o ≤ MultiSim.igv16of i₂ p o :=
      MultiSim.igv16of_mono p o hb
    have hp2 : MultiSim.ipm2of i₁ p o ≤ MultiSim.ipm2of i₂ p o :=
      MultiSim.ipm2of_mono p o hb
    have hvt : MultiSim.igvTotOf i₁ p o ≤ MultiSim.igvTotOf i₂ p o :=
      MultiSim.igvTotOf_mono p o h16 hp2
    have hadc : MultiSim.adcvdTotalOf i₁ p o ≤ MultiSim.adcvdTotalOf i₂ p o :=
      MultiSim.adcvdTotalOf_mono p o hA htr hc
    have hprn : 0 ≤ MultiSim.percRateOf i₁ o := MultiSim.percRateOf_nonneg i₁ o hpr
    have hpa : MultiSim.percepAmtOf i₁ p o ≤ MultiSim.percepAmtOf i₂ p o :=
      MultiSim.percepAmtOf_mono p o hA hprn hb h16 hp2 hadc
    exact ⟨hd, hi, hvt, hpa⟩
  · intro i₁ i₂ p o r₁ r₂ hA hcif hav higv hipm hiscr hpr h₁ h₂
    have hr₁ := UsdSim.simulate_ok_usd i₁ p o r₁ h₁
    have hr₂ := UsdSim.simulate_ok_usd i₂ p o r₂ h₂
    subst hr₁
    subst hr₂
    have hb : UsdSim.cifBaseOf i₁ ≤ UsdSim.cifBaseOf i₂ := UsdSim.cifBaseOf_mono hcif
    have hva : UsdSim.avAmtOf i₁ p ≤ UsdSim.avAmtOf i₂ p := UsdSim.avAmtOf_mono p hav hb
    have hi : UsdSim.iscTotalOf i₁ p o ≤ UsdSim.iscTotalOf i₂ p o :=
      UsdSim.iscTotalOf_mono_usd p o hiscr hb hva
    have hbb : UsdSim.igvBaseOf i₁ p o ≤ UsdSim.igvBaseOf i₂ p o :=
      UsdSim.igvBaseOf_mono_usd p o hb hva hi
    have h16 : UsdSim.igv16of i₁ p o ≤ UsdSim.igv16of i₂ p o :=
      UsdSim.igv16of_mono_usd p o higv hbb
    have hp2 : UsdSim.ipm2of i₁ p o ≤ UsdSim.ipm2of i₂ p o :=
      UsdSim.ipm2of_mono_usd p o hipm hbb
    have hvt : UsdSim.igvTotOf i₁ p o ≤ UsdSim.igvTotOf i₂ p o :=
      UsdSim.igvTotOf_mono_usd p o h16 hp2
    have hprn : 0 ≤ UsdSim.percRateOf i₁ o := UsdSim.percRateOf_nonneg_usd i₁ o hpr
    have hpa : UsdSim.percAmtOf i₁ p o ≤ UsdSim.percAmtOf i₂ p o :=
      UsdSim.percAmtOf_mono p o hA hprn hbb h16 hp2
    exact ⟨hva, hi, hvt, hpa⟩

/-- C9 witness: the monotonicity statement evaluated on concrete input
pairs (bases 1000 ≤ 2000 in PEN-converted terms, and 1200 ≤ 2400 in USD). -/
theorem C9_base_monotonicity_witness :
    (MultiSim.simulate MultiSim.sampleInput MultiSim.sampleProfile MultiSim.emptyOverrides =
       Except.ok (getOk (MultiSim.simulate MultiSim.sampleInput MultiSim.sampleProfile
         MultiSim.emptyOverrides) MultiSim.zeroResult) ∧
     MultiSim.simulate MultiSim.sampleInput2 MultiSim.sampleProfile MultiSim.emptyOverrides =
       Except.ok (getOk (MultiSim.simulate MultiSim.sampleInput2 MultiSim.sampleProfile
         MultiSim.emptyOverrides) MultiSim.zeroResult) ∧
     (getOk (MultiSim.simulate MultiSim.sampleInput MultiSim.sampleProfile
        MultiSim.emptyOverrides) MultiSim.zeroResult).arancel.amount ≤
       (getOk (MultiSim.simulate MultiSim.sampleInput2 MultiSim.sampleProfile
         MultiSim.emptyOverrides) MultiSim.zeroResult).arancel.amount ∧
     (getOk (MultiSim.simulate MultiSim.sampleInput MultiSim.sampleProfile
        MultiSim.emptyOverrides) MultiSim.zeroResult).percepcion.amount ≤
       (getOk (MultiSim.simulate MultiSim.sampleInput2 MultiSim.sampleProfile
         MultiSim.emptyOverrides) MultiSim.zeroResult).percepcion.amount) ∧
    ((getOk (UsdSim.simulate UsdSim.sampleInput UsdSim.sampleProfile UsdSim.sampleOverrides)
        UsdSim.zeroResult).igv.total ≤
      (getOk (UsdSim.simulate UsdSim.sampleInput2 UsdSim.sampleProfile UsdSim.sampleOverrides)
        UsdSim.zeroResult).igv.total) := by
  have hok1 : MultiSim.simulate MultiSim.sampleInput MultiSim.sampleProfile
      MultiSim.emptyOverrides =
      Except.ok (getOk (MultiSim.simulate MultiSim.sampleInput MultiSim.sampleProfile
        MultiSim.emptyOverrides) MultiSim.zeroResult) := by
    apply getOk_spec
    norm_num [MultiSim.simulate, isOkB, MultiSim.cifUSDof, MultiSim.sampleInput]
  have hok2 : MultiSim.simulate MultiSim.sampleInput2 MultiSim.sampleProfile
      MultiSim.emptyOverrides =
      Except.ok (getOk (MultiSim.simulate MultiSim.sampleInput2 MultiSim.sampleProfile
        MultiSim.emptyOverrides) MultiSim.zeroResult) := by
    apply getOk_spec
    norm_num [MultiSim.simulate, isOkB, MultiSim.cifUSDof, MultiSim.sampleInput2,
      MultiSim.sampleInput]
  have hok3 : UsdSim.simulate UsdSim.sampleInput UsdSim.sampleProfile UsdSim.sampleOverrides =
      Except.ok (getOk (UsdSim.simulate UsdSim.sampleInput UsdSim.sampleProfile
        UsdSim.sampleOverrides) UsdSim.zeroResult) := by
    apply getOk_spec
    norm_num [UsdSim.simulate, isOkB, UsdSim.cifUsdOf, UsdSim.sampleInput]
  have hok4 : UsdSim.simulate UsdSim.sampleInput2 UsdSim.sampleProfile
      UsdSim.sampleOverrides =
      Except.ok (getOk (UsdSim.simulate UsdSim.sampleInput2 UsdSim.sampleProfile
        UsdSim.sampleOverrides) UsdSim.zeroResult) := by
    apply getOk_spec
    norm_num [UsdSim.simulate, isOkB, UsdSim.cifUsdOf, UsdSim.sampleInput2,
      UsdSim.sampleInput]
  have hm := C9_base_monotonicity.1 MultiSim.sampleInput MultiSim.sampleInput2
    MultiSim.sampleProfile MultiSim.emptyOverrides _ _
    ⟨rfl, rfl, rfl, rfl, rfl, rfl⟩
    (by norm_num [MultiSim.cifUSDof, MultiSim.sampleInput, MultiSim.sampleInput2])
    (by norm_num [MultiSim.sampleInput])
    (by norm_num [MultiSim.sampleProfile])
    (by intro f hf; simp [MultiSim.sampleProfile] at hf)
    (by intro x hx; simp [MultiSim.emptyOverrides] at hx)
    (by intro rule hr; simp [MultiSim.sampleProfile] at hr)
    (by intro t ht; simp [MultiSim.sampleProfile] at ht)
    (by intro x hx; simp [MultiSim.emptyOverrides] at hx)
    hok1 hok2
  have hu := C9_base_monotonicity.2 UsdSim.sampleInput UsdSim.sampleInput2
    UsdSim.sampleProfile UsdSim.sampleOverrides _ _
    ⟨rfl, rfl⟩
    (by norm_num [UsdSim.cifUsdOf, UsdSim.sampleInput, UsdSim.sampleInput2])
    (by norm_num [UsdSim.sampleProfile])
    (by norm_num [UsdSim.sampleProfile])
    (by norm_num [UsdSim.sampleProfile])
    (by intro x hx; simp [UsdSim.sampleOverrides] at hx)
    (by intro x hx; simp [UsdSim.sampleOverrides] at hx)
    hok3 hok4
  exact ⟨⟨hok1, hok2, hm.1, hm.2.2.2⟩, hu.2.2.1⟩

end Miaff
